import Mathlib

/-!
Verification of the matterbridge-valetudo state-normalization core.

This file gives a shallow embedding, in Lean 4, of the pure logic of the
plugin's synchronizer (`src/module.ts`) and of the Valetudo client's spatial
lookup (`src/valetudo-client.ts`), and proves the frozen claims about it.

Modelling conventions:
* JavaScript numbers are modelled as `Rat` (exact rational arithmetic) where
  the source divides or multiplies, and as `Int` where the source only stores
  and compares rounded values.  `Math.round x = ⌊x + 1/2⌋` for finite inputs,
  which is exactly Mathlib's `round` on `ℚ`.
* `null`/`undefined` become `Option`.
* Asynchronous fetches are oracle inputs: each poll cycle receives the results
  the network would have produced.  A thrown JavaScript exception inside a
  sub-step is modelled by a boolean oracle (`raise`) that aborts the sub-step
  at its first operation; the surrounding `try`/`catch` structure of the
  source is translated faithfully.
* Downstream `setAttribute` calls become explicit `Publication` values, and
  logging becomes explicit `LogEvent` values carrying the source's severity.
-/

set_option maxHeartbeats 1000000
set_option maxRecDepth 8192
set_option allowUnsafeReducibility true

/- Batteries marks the `Rat` field operations `@[irreducible]`, which blocks
the elaborator-side evaluation `decide` performs on closed witness inputs
(the kernel itself reduces them fine).  Restoring the default reducibility
lets concrete rational arithmetic evaluate. -/
attribute [local semireducible] Rat.add Rat.sub Rat.mul Rat.inv

namespace ValetudoBridge

/-- Model of JavaScript `String.prototype.toLowerCase` (ASCII range, which is
all the source ever feeds it). -/
def toLowerString (s : String) : String :=
  ⟨s.data.map Char.toLower⟩

/-! ### Matter enumeration constants (module.ts, `const enum` blocks) -/

namespace OperationalStateValue

def Stopped : Int := 0x00
def Running : Int := 0x01
def Paused : Int := 0x02
def Error : Int := 0x03
def SeekingCharger : Int := 0x40
def Charging : Int := 0x41
def Docked : Int := 0x42

end OperationalStateValue

namespace RvcRunModeValue

def Idle : Int := 1
def Cleaning : Int := 2
def Mapping : Int := 3

end RvcRunModeValue

/-! ### Enumeration mapper (module.ts lines 1137-1175) -/

/-- Lookup table `statusMap` from `mapValetudoStatusToOperationalState`.
Returns `none` for keys absent from the record literal. -/
def statusMap (s : String) : Option Int :=
  if s = "idle" then some OperationalStateValue.Docked
  else if s = "docked" then some OperationalStateValue.Docked
  else if s = "cleaning" then some OperationalStateValue.Running
  else if s = "returning" then some OperationalStateValue.SeekingCharger
  else if s = "manual_control" then some OperationalStateValue.Running
  else if s = "moving" then some OperationalStateValue.Docked
  else if s = "paused" then some OperationalStateValue.Paused
  else if s = "error" then some OperationalStateValue.Error
  else if s = "charging" then some OperationalStateValue.Charging
  else none

/-- Translation of `mapValetudoStatusToOperationalState(status, dockStatus?)`.
A JavaScript `undefined` (or empty, hence falsy) dock status is `none`; an
empty string passed as `some ""` fails the inner comparison exactly as the
falsiness check does in the source, so the two models agree. -/
def mapValetudoStatusToOperationalState (status : String) (dockStatus : Option String) : Int :=
  let statusLower := toLowerString status
  let baseState := (statusMap statusLower).getD OperationalStateValue.Stopped
  match dockStatus with
  | some d =>
    if statusLower = "docked" ∨ statusLower = "idle" ∨ statusLower = "charging" then
      let dockStatusLower := toLowerString d
      if dockStatusLower = "emptying" ∨ dockStatusLower = "drying" ∨ dockStatusLower = "cleaning" then
        OperationalStateValue.Docked
      else baseState
    else baseState
  | none => baseState

/-- Translation of `mapValetudoStatusToRunMode(status)`. -/
def mapValetudoStatusToRunMode (status : String) : Int :=
  if toLowerString status = "cleaning" then RvcRunModeValue.Cleaning
  else RvcRunModeValue.Idle

/-- The status strings that appear as keys of `statusMap`. -/
def knownStatuses : List String :=
  ["idle", "docked", "cleaning", "returning", "manual_control", "moving", "paused", "error", "charging"]

/-- C2: the two status mappers are pure total functions (they are Lean
functions, hence pure and total by construction), matched case-insensitively:
each of the nine known statuses yields its fixed table value, any status
outside the known set yields the default (`Stopped` for operational state;
the run-mode default `Idle` is the right branch of the iff below), run mode
is `Cleaning` iff the status indicates active cleaning, and a dock sub-status
among {emptying, drying, cleaning} together with a base status resolving via
{docked, idle, charging} forces the operational state to `Docked`. -/
theorem C2_statusMapper_correct :
    (∀ s : String, toLowerString s = "idle" →
      mapValetudoStatusToOperationalState s none = OperationalStateValue.Docked) ∧
    (∀ s : String, toLowerString s = "docked" →
      mapValetudoStatusToOperationalState s none = OperationalStateValue.Docked) ∧
    (∀ s : String, toLowerString s = "cleaning" →
      mapValetudoStatusToOperationalState s none = OperationalStateValue.Running) ∧
    (∀ s : String, toLowerString s = "returning" →
      mapValetudoStatusToOperationalState s none = OperationalStateValue.SeekingCharger) ∧
    (∀ s : String, toLowerString s = "manual_control" →
      mapValetudoStatusToOperationalState s none = OperationalStateValue.Running) ∧
    (∀ s : String, toLowerString s = "moving" →
      mapValetudoStatusToOperationalState s none = OperationalStateValue.Docked) ∧
    (∀ s : String, toLowerString s = "paused" →
      mapValetudoStatusToOperationalState s none = OperationalStateValue.Paused) ∧
    (∀ s : String, toLowerString s = "error" →
      mapValetudoStatusToOperationalState s none = OperationalStateValue.Error) ∧
    (∀ s : String, toLowerString s = "charging" →
      mapValetudoStatusToOperationalState s none = OperationalStateValue.Charging) ∧
    (∀ (s : String) (d : Option String), toLowerString s ∉ knownStatuses →
      mapValetudoStatusToOperationalState s d = OperationalStateValue.Stopped) ∧
    (∀ s : String,
      mapValetudoStatusToRunMode s = RvcRunModeValue.Cleaning ↔ toLowerString s = "cleaning") ∧
    (∀ s : String, toLowerString s ≠ "cleaning" →
      mapValetudoStatusToRunMode s = RvcRunModeValue.Idle) ∧
    (∀ s d : String, toLowerString s ∈ ["docked", "idle", "charging"] →
      toLowerString d ∈ ["emptying", "drying", "cleaning"] →
      mapValetudoStatusToOperationalState s (some d) = OperationalStateValue.Docked) := by
  refine ⟨?_, ?_, ?_, ?_, ?_, ?_, ?_, ?_, ?_, ?_, ?_, ?_, ?_⟩
  · intro s h; simp [mapValetudoStatusToOperationalState, statusMap, h]
  · intro s h; simp [mapValetudoStatusToOperationalState, statusMap, h]
  · intro s h; simp [mapValetudoStatusToOperationalState, statusMap, h]
  · intro s h; simp [mapValetudoStatusToOperationalState, statusMap, h]
  · intro s h; simp [mapValetudoStatusToOperationalState, statusMap, h]
  · intro s h; simp [mapValetudoStatusToOperationalState, statusMap, h]
  · intro s h; simp [mapValetudoStatusToOperationalState, statusMap, h]
  · intro s h; simp [mapValetudoStatusToOperationalState, statusMap, h]
  · intro s h; simp [mapValetudoStatusToOperationalState, statusMap, h]
  · intro s d h
    simp only [knownStatuses, List.mem_cons, List.not_mem_nil, or_false] at h
    push_neg at h
    obtain ⟨h1, h2, h3, h4, h5, h6, h7, h8, h9⟩ := h
    cases d <;>
      simp [mapValetudoStatusToOperationalState, statusMap, OperationalStateValue.Stopped,
        h1, h2, h3, h4, h5, h6, h7, h8, h9]
  · intro s
    by_cases h : toLowerString s = "cleaning" <;>
      simp [mapValetudoStatusToRunMode, RvcRunModeValue.Cleaning, RvcRunModeValue.Idle, h]
  · intro s h
    simp [mapValetudoStatusToRunMode, h]
  · intro s d hs hd
    simp only [List.mem_cons, List.not_mem_nil, or_false] at hs hd
    rcases hs with h | h | h <;> rcases hd with g | g | g <;>
      simp [mapValetudoStatusToOperationalState, statusMap, h, g]

/-- Witness for C2 at concrete inputs: a mixed-case known status, an unknown
status defaulting to Stopped, the run-mode biconditional, and the dock
override ("docked" + "drying" forces Docked). -/
theorem C2_statusMapper_correct_witness :
    mapValetudoStatusToOperationalState "Idle" none = OperationalStateValue.Docked ∧
    mapValetudoStatusToOperationalState "levitating" (some "drying") = OperationalStateValue.Stopped ∧
    mapValetudoStatusToRunMode "CLEANING" = RvcRunModeValue.Cleaning ∧
    mapValetudoStatusToOperationalState "Docked" (some "Drying") = OperationalStateValue.Docked :=
  ⟨C2_statusMapper_correct.1 "Idle" (by decide),
   (C2_statusMapper_correct.2.2.2.2.2.2.2.2.2.1) "levitating" (some "drying") (by decide),
   (C2_statusMapper_correct.2.2.2.2.2.2.2.2.2.2.1 "CLEANING").mpr (by decide),
   (C2_statusMapper_correct.2.2.2.2.2.2.2.2.2.2.2.2) "Docked" "Drying" (by decide) (by decide)⟩

/-! ### Spatial index cache and region lookup (valetudo-client.ts lines 111-166, 527-558) -/

/-- Per-axis bounding data of a map layer (`MapLayerDimensions.x` / `.y`). -/
structure AxisDimension where
  min : Rat
  max : Rat
  mid : Rat
  avg : Rat
deriving DecidableEq

/-- Translation of `MapLayerDimensions`. -/
structure MapLayerDimensions where
  x : AxisDimension
  y : AxisDimension
  pixelCount : Int
deriving DecidableEq

/-- Translation of `MapLayer`; `metaData.segmentId` is flattened into the
field `segmentId` (the only metaData field this logic reads). -/
structure MapLayer where
  type : String
  segmentId : String
  dimensions : MapLayerDimensions
deriving DecidableEq

/-- Translation of `CachedMapLayers` (`createCachedLayers` output). -/
structure CachedMapLayers where
  layers : List MapLayer
  sizeX : Rat
  sizeY : Rat
  pixelSize : Rat
  timestamp : Rat
  version : Int
deriving DecidableEq

/-- The `inBounds` test of `findSegmentAtPositionCached`:
`x >= dims.x.min && x <= dims.x.max && y >= dims.y.min && y <= dims.y.max`. -/
def inBounds (l : MapLayer) (x y : Rat) : Bool :=
  decide (l.dimensions.x.min ≤ x) && decide (x ≤ l.dimensions.x.max) &&
  decide (l.dimensions.y.min ≤ y) && decide (y ≤ l.dimensions.y.max)

/-- Squared distance from the query point to a layer's recorded midpoint.
The source compares `Math.sqrt` of this quantity; since the square root is
strictly monotone on nonnegative reals, every comparison and every tie the
source makes on the Euclidean distance coincides with the same comparison on
this squared distance, so the selection logic is modelled on it exactly. -/
def distSqFromMid (l : MapLayer) (x y : Rat) : Rat :=
  (x - l.dimensions.x.mid) ^ 2 + (y - l.dimensions.y.mid) ^ 2

/-- First element of a list minimizing `f`, earlier element preferred on ties.
JavaScript `Array.prototype.sort` is stable, so taking index 0 of the array
sorted ascending by distance (what the source does) returns exactly the
earliest element of minimal distance, which is what this function computes. -/
def firstMinBy {α : Type} (f : α → Rat) : List α → Option α
  | [] => none
  | a :: as =>
    match firstMinBy f as with
    | none => some a
    | some b => if f b < f a then some b else some a

/-- Translation of `findSegmentAtPositionCached(cachedLayers, x, y)`. -/
def findSegmentAtPositionCached (cached : CachedMapLayers) (x y : Rat) : Option MapLayer :=
  let segments := cached.layers.filter (fun l => l.type == "segment")
  let matchingSegments := segments.filterMap
    (fun s => if inBounds s x y then some (s, distSqFromMid s x y) else none)
  match matchingSegments with
  | [] => none
  | [m] => some m.1
  | _ => (firstMinBy (fun p => p.2) matchingSegments).map (fun p => p.1)

/-- The candidates of a query, in cache layer order: segment-typed layers
whose bounding box contains the point. -/
def segmentCandidates (cached : CachedMapLayers) (x y : Rat) : List MapLayer :=
  cached.layers.filter (fun l => l.type == "segment" && inBounds l x y)

theorem filter_filterMap_eq_map {α β : Type} (p q : α → Bool) (f : α → β) (l : List α) :
    (l.filter p).filterMap (fun a => if q a then some (f a) else none)
      = (l.filter (fun a => p a && q a)).map f := by
  induction l with
  | nil => rfl
  | cons a l ih =>
    by_cases hp : p a <;> by_cases hq : q a <;>
      simp [List.filter_cons, List.filterMap_cons, hp, hq, ih]

theorem firstMinBy_eq_none {α : Type} (f : α → Rat) (l : List α) :
    firstMinBy f l = none ↔ l = [] := by
  cases l with
  | nil => simp [firstMinBy]
  | cons a as =>
    simp only [firstMinBy]
    cases h : firstMinBy f as with
    | none => simp
    | some b => by_cases hb : f b < f a <;> simp [hb]

theorem firstMinBy_split {α : Type} (f : α → Rat) (l : List α) (m : α)
    (h : firstMinBy f l = some m) :
    ∃ pre post, l = pre ++ m :: post ∧ (∀ a ∈ pre, f m < f a) ∧ (∀ a ∈ post, f m ≤ f a) := by
  induction l generalizing m with
  | nil => simp [firstMinBy] at h
  | cons a as ih =>
    rw [firstMinBy] at h
    cases has : firstMinBy f as with
    | none =>
      rw [has] at h
      have hnil : as = [] := (firstMinBy_eq_none f as).mp has
      subst hnil
      cases h
      exact ⟨[], [], rfl, by simp, by simp⟩
    | some b =>
      rw [has] at h
      have h' : (if f b < f a then some b else some a) = some m := h
      by_cases hb : f b < f a
      · rw [if_pos hb] at h'
        cases h'
        obtain ⟨pre, post, heq, hpre, hpost⟩ := ih _ has
        refine ⟨a :: pre, post, by rw [heq]; simp, ?_, hpost⟩
        intro c hc
        rcases List.mem_cons.mp hc with rfl | hc
        · exact hb
        · exact hpre c hc
      · rw [if_neg hb] at h'
        cases h'
        obtain ⟨pre, post, heq, hpre, hpost⟩ := ih _ has
        refine ⟨[], as, rfl, by simp, ?_⟩
        intro c hc
        have hab : f a ≤ f b := le_of_not_lt hb
        have hbc : f b ≤ f c := by
          rw [heq] at hc
          rcases List.mem_append.mp hc with h1 | h2
          · exact le_of_lt (hpre c h1)
          · rcases List.mem_cons.mp h2 with rfl | h3
            · exact le_refl _
            · exact hpost c h3
        exact le_trans hab hbc

theorem map_eq_append_cons {α β : Type} (g : α → β) (l : List α) (as : List β) (b : β)
    (bs : List β) (h : l.map g = as ++ b :: bs) :
    ∃ as' b' bs', l = as' ++ b' :: bs' ∧ as = as'.map g ∧ b = g b' ∧ bs = bs'.map g := by
  induction as generalizing l with
  | nil =>
    cases l with
    | nil => simp at h
    | cons x xs =>
      simp only [List.map_cons, List.nil_append, List.cons.injEq] at h
      exact ⟨[], x, xs, rfl, rfl, h.1.symm, h.2.symm⟩
  | cons a as ih =>
    cases l with
    | nil => simp at h
    | cons x xs =>
      simp only [List.map_cons, List.cons_append, List.cons.injEq] at h
      obtain ⟨h1, h2⟩ := h
      obtain ⟨as', b', bs', rfl, ha, hb, hbs⟩ := ih xs h2
      exact ⟨x :: as', b', bs', rfl, by simp [ha, h1], hb, hbs⟩

theorem mem_segmentCandidates {cached : CachedMapLayers} {x y : Rat} {m : MapLayer}
    (h : m ∈ segmentCandidates cached x y) :
    m ∈ cached.layers ∧ m.type = "segment" ∧ inBounds m x y = true := by
  rw [segmentCandidates, List.mem_filter] at h
  refine ⟨h.1, ?_, ?_⟩
  · have := h.2
    simp only [Bool.and_eq_true, beq_iff_eq] at this
    exact this.1
  · have := h.2
    simp only [Bool.and_eq_true] at this
    exact this.2

/-- C3: for every cache and query point, `findSegmentAtPositionCached`
returns `none` iff no segment-typed layer's bounding box contains the point
(inclusively on all four edges); a returned layer is always a segment layer
of the cache containing the point (so a non-segment layer is never returned,
even if its bounds contain the point); a unique candidate is returned
directly; and the returned layer is the first candidate, in cache layer
order, of minimal (squared ≡ Euclidean) midpoint distance: every earlier
candidate is strictly farther and every later one at least as far. -/
theorem C3_findSegment_correct :
    ∀ (cached : CachedMapLayers) (x y : Rat),
    (findSegmentAtPositionCached cached x y = none ↔ segmentCandidates cached x y = []) ∧
    (∀ m, segmentCandidates cached x y = [m] → findSegmentAtPositionCached cached x y = some m) ∧
    (∀ m, findSegmentAtPositionCached cached x y = some m →
      m ∈ cached.layers ∧ m.type = "segment" ∧ inBounds m x y = true ∧
      ∃ pre post, segmentCandidates cached x y = pre ++ m :: post ∧
        (∀ a ∈ pre, distSqFromMid m x y < distSqFromMid a x y) ∧
        (∀ a ∈ post, distSqFromMid m x y ≤ distSqFromMid a x y)) := by
  intro cached x y
  have hkey : findSegmentAtPositionCached cached x y =
      (match (segmentCandidates cached x y).map (fun s => (s, distSqFromMid s x y)) with
       | [] => none
       | [m] => some m.1
       | _ => (firstMinBy (fun p => p.2)
                ((segmentCandidates cached x y).map (fun s => (s, distSqFromMid s x y)))).map
                  (fun p => p.1)) := by
    rw [findSegmentAtPositionCached, segmentCandidates,
      filter_filterMap_eq_map (fun l => l.type == "segment") (fun s => inBounds s x y)
        (fun s => (s, distSqFromMid s x y)) cached.layers]
  cases hC : segmentCandidates cached x y with
  | nil =>
    rw [hC] at hkey
    have hres : findSegmentAtPositionCached cached x y = none := by
      rw [hkey]; rfl
    refine ⟨by simp [hres], ?_, ?_⟩
    · intro m hm
      exact absurd hm (by simp)
    · intro m hm
      rw [hres] at hm
      cases hm
  | cons c cs =>
    cases cs with
    | nil =>
      rw [hC] at hkey
      have hres : findSegmentAtPositionCached cached x y = some c := by
        rw [hkey]; rfl
      refine ⟨by simp [hres], ?_, ?_⟩
      · intro m hm
        injection hm with h1 h2
        subst h1
        exact hres
      · intro m hm
        rw [hres] at hm
        injection hm with h1
        subst h1
        have hc : c ∈ segmentCandidates cached x y := by
          rw [hC]
          exact List.mem_singleton.mpr rfl
        obtain ⟨h1, h2, h3⟩ := mem_segmentCandidates hc
        exact ⟨h1, h2, h3, [], [], by simp, by simp, by simp⟩
    | cons c2 cs2 =>
      rw [hC] at hkey
      cases hfm : firstMinBy (fun p : MapLayer × Rat => p.2)
          ((c :: c2 :: cs2).map (fun s => (s, distSqFromMid s x y))) with
      | none =>
        have := (firstMinBy_eq_none _ _).mp hfm
        simp at this
      | some p =>
        obtain ⟨preP, postP, heqP, hpreP, hpostP⟩ := firstMinBy_split _ _ _ hfm
        obtain ⟨preC, m0, postC, heqC, hpre_eq, hp_eq, hpost_eq⟩ :=
          map_eq_append_cons (fun s => (s, distSqFromMid s x y)) (c :: c2 :: cs2) preP p postP heqP
        have hp1 : p.1 = m0 := by rw [hp_eq]
        have hres : findSegmentAtPositionCached cached x y = some m0 := by
          rw [hkey, hfm, ← hp1]
          rfl
        refine ⟨by simp [hres], ?_, ?_⟩
        · intro m hm
          cases hm
        · intro m hm
          rw [hres] at hm
          injection hm with h1
          subst h1
          have hmem : m0 ∈ segmentCandidates cached x y := by
            rw [hC, heqC]
            exact List.mem_append.mpr (Or.inr (List.mem_cons_self _ _))
          obtain ⟨h1, h2, h3⟩ := mem_segmentCandidates hmem
          refine ⟨h1, h2, h3, preC, postC, heqC, ?_, ?_⟩
          · intro a ha
            have haP : (a, distSqFromMid a x y) ∈ preP := by
              rw [hpre_eq]
              exact List.mem_map_of_mem _ ha
            have := hpreP _ haP
            rw [hp_eq] at this
            simpa using this
          · intro a ha
            have haP : (a, distSqFromMid a x y) ∈ postP := by
              rw [hpost_eq]
              exact List.mem_map_of_mem _ ha
            have := hpostP _ haP
            rw [hp_eq] at this
            simpa using this

/-- Concrete data for the C3 witness: two overlapping segment layers with
midpoints (75,50) and (125,50), and a non-segment layer covering everything. -/
def sampleLayerA : MapLayer :=
  ⟨"segment", "room_a", ⟨⟨0, 150, 75, 75⟩, ⟨0, 100, 50, 50⟩, 10000⟩⟩

def sampleLayerB : MapLayer :=
  ⟨"segment", "room_b", ⟨⟨50, 200, 125, 125⟩, ⟨0, 100, 50, 50⟩, 10000⟩⟩

def sampleWallLayer : MapLayer :=
  ⟨"wall", "wall_0", ⟨⟨0, 3000, 1500, 1500⟩, ⟨0, 3000, 1500, 1500⟩, 90000⟩⟩

def sampleCache : CachedMapLayers :=
  ⟨[sampleLayerA, sampleLayerB, sampleWallLayer], 1000, 1000, 5, 0, 1⟩

/-- Witness for C3: at (70,50) both segment layers overlap and the first
(midpoint distance 5 vs 55) wins; at (999,999) only the non-segment wall
layer contains the point, and the lookup still reports NotFound. -/
theorem C3_findSegment_correct_witness :
    (sampleLayerA ∈ sampleCache.layers ∧ sampleLayerA.type = "segment" ∧
      inBounds sampleLayerA 70 50 = true ∧
      ∃ pre post, segmentCandidates sampleCache 70 50 = pre ++ sampleLayerA :: post ∧
        (∀ a ∈ pre, distSqFromMid sampleLayerA 70 50 < distSqFromMid a 70 50) ∧
        (∀ a ∈ post, distSqFromMid sampleLayerA 70 50 ≤ distSqFromMid a 70 50)) ∧
    findSegmentAtPositionCached sampleCache 999 999 = none ∧
    inBounds sampleWallLayer 999 999 = true :=
  ⟨(C3_findSegment_correct sampleCache 70 50).2.2 sampleLayerA (by decide),
   (C3_findSegment_correct sampleCache 999 999).1.mpr (by decide),
   by decide⟩

/-! ### Consumable tracker (module.ts lines 1074-1132, 1344-1392) -/

/-- Does the first list start with the second one? (helper for `strIncludes`). -/
def listStartsWith : List Char → List Char → Bool
  | _, [] => true
  | [], _ :: _ => false
  | a :: as, b :: bs => a == b && listStartsWith as bs

/-- Does the first list contain the second as a contiguous sublist? -/
def listHasSubstr : List Char → List Char → Bool
  | [], needle => needle.isEmpty
  | a :: rest, needle => listStartsWith (a :: rest) needle || listHasSubstr rest needle

/-- Model of JavaScript `hay.includes(needle)`. -/
def strIncludes (hay needle : String) : Bool :=
  listHasSubstr hay.data needle.data

/-- JavaScript `Math.round` on exact rationals: `⌊x + 1/2⌋` (rounds halves
toward positive infinity, like `Math.round` does for finite doubles). -/
def jsRound (x : Rat) : Int :=
  Rat.floor (x + 1 / 2)

/-- Sanity link: `jsRound` is Mathlib's `round` on `ℚ`. -/
theorem jsRound_eq_round (x : Rat) : jsRound x = round x := by
  rw [round_eq, jsRound, Rat.floor_def', Rat.floor_def]

/-- Translation of `ValetudoConsumable`; `remaining.unit` is never read by
the tracking logic and is omitted. -/
structure Consumable where
  type : String
  subType : String
  remainingValue : Rat
deriving DecidableEq

/-- The `typeMap` record literal of `getConsumableName`. -/
def consumableTypeMap (key : String) : Option String :=
  if key = "brush-main" then some "Main Brush"
  else if key = "brush-side_right" then some "Side Brush"
  else if key = "brush-side_left" then some "Side Brush Left"
  else if key = "filter-main" then some "Dust Filter"
  else if key = "cleaning-sensor" then some "Sensor"
  else if key = "cleaning-wheel" then some "Wheel"
  else if key = "consumable-detergent" then some "Detergent"
  else none

/-- Translation of `getConsumableName(consumable)`. -/
def getConsumableName (c : Consumable) : String :=
  let key := c.type ++ "-" ++ c.subType
  if strIncludes c.subType "dock" then "Detergent"
  else (consumableTypeMap key).getD (c.type ++ " " ++ c.subType)

/-- The `maxLifetimes` record; only the four keys below are ever read. -/
structure MaxLifetimes where
  mainBrush : Option Rat
  sideBrush : Option Rat
  dustFilter : Option Rat
  sensor : Option Rat
deriving DecidableEq

/-- Default lifetimes object (module.ts lines 1092-1097 and 801-806). -/
def defaultMaxLifetimes : MaxLifetimes :=
  ⟨some 18000, some 12000, some 9000, some 1800⟩

/-- JS `maxLifetimes[key] || 10000`: a missing (or zero, hence falsy) entry
falls back to 10000. -/
def lookupMaxLifetime (ml : MaxLifetimes) (key : String) : Rat :=
  let v : Option Rat :=
    if key = "mainBrush" then ml.mainBrush
    else if key = "sideBrush" then ml.sideBrush
    else if key = "dustFilter" then ml.dustFilter
    else if key = "sensor" then ml.sensor
    else none
  match v with
  | none => 10000
  | some r => if r = 0 then 10000 else r

/-- Translation of `getMaxLifetime(consumable, maxLifetimes)`. -/
def getMaxLifetime (c : Consumable) (ml : MaxLifetimes) : Rat :=
  if c.remainingValue ≤ 100 ∧ 0 ≤ c.remainingValue ∧
      (c.type = "consumable" ∨ strIncludes c.subType "detergent" = true ∨
        strIncludes c.subType "dock" = true) then
    100
  else if c.type = "brush" ∧ c.subType = "main" then lookupMaxLifetime ml "mainBrush"
  else if c.type = "brush" ∧ (c.subType = "side_right" ∨ c.subType = "side_left") then
    lookupMaxLifetime ml "sideBrush"
  else if c.type = "filter" ∧ c.subType = "main" then lookupMaxLifetime ml "dustFilter"
  else if c.type = "cleaning" ∧ c.subType = "sensor" then lookupMaxLifetime ml "sensor"
  else 10000

/-- One entry of `vacuum.consumableMap`: the stored consumable record itself
is carried along but never read back by the tracking logic, so the model
keeps the last computed needs-replacement boolean and whether a contact
sensor endpoint was registered for the entry. -/
structure ConsumableEntry where
  lastState : Option Bool
  hasEndpoint : Bool
deriving DecidableEq

/-- Observable effects of processing one consumable inside a check:
whether the transition log line fired and, when an endpoint exists, the value
written to its `BooleanState.stateValue` attribute. -/
structure ConsumableCheckEffect where
  logged : Bool
  published : Option Bool
deriving DecidableEq

/-- JS `config.consumables?.warningThreshold || 10`: an unset (or zero,
hence falsy) configured threshold falls back to 10. -/
def resolveWarningThreshold (cfg : Option Int) : Int :=
  match cfg with
  | none => 10
  | some w => if w = 0 then 10 else w

/-- JS `config.consumables?.maxLifetimes || defaults`. -/
def resolveMaxLifetimes (cfg : Option MaxLifetimes) : MaxLifetimes :=
  cfg.getD defaultMaxLifetimes

/-- Body of the per-consumable loop of `updateConsumableStatesForVacuum`
(module.ts lines 1110-1127), for an entry found in the map. -/
def checkConsumable (ml : MaxLifetimes) (warningThreshold : Int) (entry : ConsumableEntry)
    (c : Consumable) : ConsumableEntry × ConsumableCheckEffect :=
  let maxLifetime := getMaxLifetime c ml
  let lifePercent : Int := jsRound (c.remainingValue / maxLifetime * 100)
  let needsReplacement : Bool := decide (lifePercent ≤ warningThreshold)
  let logFires : Bool := decide (entry.lastState = none) || decide (entry.lastState ≠ some needsReplacement)
  let entry1 := if logFires then { entry with lastState := some needsReplacement } else entry
  (entry1, ⟨logFires, if entry.hasEndpoint then some (!needsReplacement) else none⟩)

/-! ### Poll cycle (module.ts lines 903-1069) -/

/-- Log severities used by the synchronizer. -/
inductive Severity where
  | error
  | warn
  | info
  | debug
deriving DecidableEq

/-- One log line, identified by severity and a tag naming the source site. -/
structure LogEvent where
  severity : Severity
  tag : String
deriving DecidableEq

/-- One downstream `setAttribute` call issued by the poll cycle. -/
inductive Publication where
  | batteryLevel (v : Int)
  | batteryChargeState (v : Int)
  | operationalState (v : Int)
  | runMode (v : Int)
  | currentArea (v : Int)
  | consumableState (name : String) (stateValue : Bool)
deriving DecidableEq

/-- Tagged union of the `StateAttribute` records the cycle reads, tagged as
the source tags them through `__class`; every other attribute class is
`other`. -/
inductive StateAttr where
  | battery (level : Rat) (flag : String)
  | status (value : String)
  | dockStatus (value : String)
  | other (cls : String)
deriving DecidableEq

/-- `attributes.find(a => a.__class === 'BatteryStateAttribute')`. -/
def findBatteryAttr : List StateAttr → Option (Rat × String)
  | [] => none
  | StateAttr.battery l f :: _ => some (l, f)
  | _ :: rest => findBatteryAttr rest

/-- `attributes.find(a => a.__class === 'StatusStateAttribute')`. -/
def findStatusAttr : List StateAttr → Option String
  | [] => none
  | StateAttr.status v :: _ => some v
  | _ :: rest => findStatusAttr rest

/-- `attributes.find(a => a.__class === 'DockStatusStateAttribute')`. -/
def findDockStatusAttr : List StateAttr → Option String
  | [] => none
  | StateAttr.dockStatus v :: _ => some v
  | _ :: rest => findDockStatusAttr rest

/-- The battery-flag translation of module.ts lines 918-926. -/
def batChargeStateOf (flag : String) : Int :=
  if flag = "charging" then 1
  else if flag = "charged" then 2
  else if flag = "discharging" ∨ flag = "none" then 3
  else 0

/-- A map entity of the position payload (only `type` and `points` are read). -/
structure MapEntity where
  type : String
  points : List Rat
deriving DecidableEq

/-- Translation of `MapPositionData` (`metaData?.version` as an `Option`). -/
structure MapPositionData where
  entities : List MapEntity
  version : Option Int
deriving DecidableEq

/-- The mutable per-device fields of `VacuumInstance` that the poll cycle
reads or writes.  `areaToSegmentMap` entries are (areaId, segmentId, name). -/
structure VacuumState where
  lastBatteryLevel : Option Int
  lastBatteryChargeState : Option Int
  lastOperationalState : Option Int
  lastRunMode : Option Int
  lastCurrentArea : Option Int
  initialStatePending : Bool
  online : Bool
  lastSeen : Rat
  mapLayersCache : Option CachedMapLayers
  mapCacheValidUntil : Rat
  lastConsumablesCheck : Rat
  areaToSegmentMap : List (Int × String × String)
  consumables : List (String × ConsumableEntry)
deriving DecidableEq

/-- The configuration fields the poll cycle consults. -/
structure Config where
  positionTrackingEnabled : Bool
  refreshIntervalHours : Option Rat
  warningThreshold : Option Int
  maxLifetimes : Option MaxLifetimes
deriving DecidableEq

/-- Oracle inputs of the position-tracking sub-step: `raise` models a
JavaScript exception thrown inside its `try` block (injected at the start of
the block), `refresh1`/`refresh2` the cached-layer results of the two
possible `refreshMapCacheForVacuum` map fetches (`none` = fetch failed), and
`posData` the `getMapPositionData()` result. -/
structure PositionInputs where
  raise : Bool
  refresh1 : Option CachedMapLayers
  posData : Option MapPositionData
  refresh2 : Option CachedMapLayers
deriving DecidableEq

/-- Oracle inputs of the consumable sub-step: `raise` models an exception
inside its `try` block, `fetch` the `getConsumables()` result. -/
structure ConsInputs where
  raise : Bool
  fetch : Option (List Consumable)
deriving DecidableEq

/-- Oracle inputs of one whole poll cycle.  `publishRaise` models an
exception thrown by a tracked-attribute `setAttribute` call (injected at the
start of the attribute pass), which escapes to the outer catch of
`updateVacuumState`. -/
structure PollInputs where
  attrs : Option (List StateAttr)
  publishRaise : Bool
  now : Rat
  pos : PositionInputs
  cons : ConsInputs
deriving DecidableEq

/-- `Math.max(0.1, Math.min(24, config.mapCache?.refreshIntervalHours ?? 1))`. -/
def clampRefreshHours (cfg : Option Rat) : Rat :=
  max (1 / 10) (min 24 (cfg.getD 1))

/-- Translation of `refreshMapCacheForVacuum` (lines 1059-1069): the cache
and its validity horizon are replaced only when the map fetch succeeded. -/
def refreshMapCacheForVacuum (cfg : Config) (now : Rat) (st : VacuumState)
    (fetched : Option CachedMapLayers) : VacuumState :=
  match fetched with
  | none => st
  | some cache =>
    { st with
      mapLayersCache := some cache,
      mapCacheValidUntil := now + clampRefreshHours cfg.refreshIntervalHours * 60 * 60 * 1000 }

/-- Body of the position-tracking `try` block (lines 991-1037). -/
def positionPassCore (cfg : Config) (st : VacuumState) (now : Rat) (inp : PositionInputs) :
    VacuumState × List Publication × List LogEvent :=
  let st1 := if st.mapLayersCache = none ∨ st.mapCacheValidUntil < now then
      refreshMapCacheForVacuum cfg now st inp.refresh1
    else st
  match st1.mapLayersCache with
  | none => (st1, [], [])
  | some cache1 =>
    match inp.posData with
    | none => (st1, [], [])
    | some pd =>
      let st2 :=
        match pd.version with
        | some v =>
          if v ≠ cache1.version then refreshMapCacheForVacuum cfg now st1 inp.refresh2 else st1
        | none => st1
      match List.find? (fun e => e.type == "robot_position") pd.entities with
      | none => (st2, [], [])
      | some robotEntity =>
        match robotEntity.points with
        | p0 :: p1 :: _ =>
          match st2.mapLayersCache with
          | none => (st2, [], [])
          | some cache2 =>
            let x : Rat := (jsRound (p0 / cache2.pixelSize) : Int)
            let y : Rat := (jsRound (p1 / cache2.pixelSize) : Int)
            match findSegmentAtPositionCached cache2 x y with
            | none => (st2, [], [])
            | some seg =>
              match List.find? (fun a => a.2.1 == seg.segmentId) st2.areaToSegmentMap with
              | none => (st2, [], [])
              | some a =>
                if st2.lastCurrentArea ≠ some a.1 then
                  ({ st2 with lastCurrentArea := some a.1 }, [Publication.currentArea a.1], [])
                else (st2, [], [])
        | _ => (st2, [], [])

/-- The position-tracking sub-step (lines 989-1041), guard plus `try`/`catch`:
an exception is caught and logged at debug severity. -/
def positionPass (cfg : Config) (st : VacuumState) (now : Rat) (inp : PositionInputs) :
    VacuumState × List Publication × List LogEvent :=
  if cfg.positionTrackingEnabled = true ∧ st.areaToSegmentMap ≠ [] then
    if inp.raise = true then (st, [], [⟨Severity.debug, "position-tracking-error"⟩])
    else positionPassCore cfg st now inp
  else (st, [], [])

/-- Association-list read of `vacuum.consumableMap.get(name)`. -/
def lookupEntry : List (String × ConsumableEntry) → String → Option ConsumableEntry
  | [], _ => none
  | (k, e) :: rest, name => if k = name then some e else lookupEntry rest name

/-- In-place mutation of the entry object held in the map. -/
def updateEntry : List (String × ConsumableEntry) → String → ConsumableEntry →
    List (String × ConsumableEntry)
  | [], _, _ => []
  | (k, e) :: rest, name, e1 =>
    if k = name then (k, e1) :: rest else (k, e) :: updateEntry rest name e1

/-- The `for (const consumable of consumables)` loop (lines 1104-1128). -/
def processConsumables (ml : MaxLifetimes) (warningThreshold : Int) (st : VacuumState) :
    List Consumable → VacuumState × List Publication × List LogEvent
  | [] => (st, [], [])
  | c :: rest =>
    let name := getConsumableName c
    match lookupEntry st.consumables name with
    | none => processConsumables ml warningThreshold st rest
    | some entry =>
      let r := checkConsumable ml warningThreshold entry c
      let st1 := { st with consumables := updateEntry st.consumables name r.1 }
      let pubs := match r.2.published with
        | some v => [Publication.consumableState name v]
        | none => []
      let logs : List LogEvent := if r.2.logged then [⟨Severity.info, "consumable-status"⟩] else []
      let rcall := processConsumables ml warningThreshold st1 rest
      (rcall.1, pubs ++ rcall.2.1, logs ++ rcall.2.2)

/-- `5 * 60 * 1000` ms. -/
def CONSUMABLES_CHECK_INTERVAL : Rat := 5 * 60 * 1000

/-- Translation of `updateConsumableStatesForVacuum` (lines 1074-1132): the
time gate and timestamp update precede the `try`; an exception in the `try`
is caught and logged at debug severity. -/
def updateConsumableStatesForVacuum (cfg : Config) (st : VacuumState) (now : Rat)
    (inp : ConsInputs) : VacuumState × List Publication × List LogEvent :=
  if now - st.lastConsumablesCheck < CONSUMABLES_CHECK_INTERVAL then (st, [], [])
  else
    let st1 := { st with lastConsumablesCheck := now }
    if inp.raise = true then (st1, [], [⟨Severity.debug, "consumables-error"⟩])
    else
      match inp.fetch with
      | none => (st1, [], [])
      | some consumables =>
        processConsumables (resolveMaxLifetimes cfg.maxLifetimes)
          (resolveWarningThreshold cfg.warningThreshold) st1 consumables

/-- The battery block of `updateVacuumState` (lines 915-945).  Both changed
flags are computed from the pre-pass state, as in the source. -/
def batteryPass (st : VacuumState) (attributes : List StateAttr) :
    VacuumState × List Publication :=
  match findBatteryAttr attributes with
  | none => (st, [])
  | some (level, flag) =>
    let batPercentRemaining : Int := jsRound (level * 2)
    let batChargeState : Int := batChargeStateOf flag
    let r1 : VacuumState × List Publication :=
      if st.initialStatePending = true ∨ st.lastBatteryLevel ≠ some batPercentRemaining then
        ({ st with lastBatteryLevel := some batPercentRemaining },
          [Publication.batteryLevel batPercentRemaining])
      else (st, [])
    let r2 : VacuumState × List Publication :=
      if st.initialStatePending = true ∨ st.lastBatteryChargeState ≠ some batChargeState then
        ({ r1.1 with lastBatteryChargeState := some batChargeState },
          [Publication.batteryChargeState batChargeState])
      else (r1.1, [])
    (r2.1, r1.2 ++ r2.2)

/-- The status block of `updateVacuumState` (lines 951-977). -/
def statusPass (st : VacuumState) (attributes : List StateAttr) :
    VacuumState × List Publication :=
  match findStatusAttr attributes with
  | none => (st, [])
  | some statusValue =>
    let dock := findDockStatusAttr attributes
    let operationalState := mapValetudoStatusToOperationalState statusValue dock
    let runMode := mapValetudoStatusToRunMode statusValue
    let r1 : VacuumState × List Publication :=
      if st.initialStatePending = true ∨ st.lastOperationalState ≠ some operationalState then
        ({ st with lastOperationalState := some operationalState },
          [Publication.operationalState operationalState])
      else (st, [])
    let r2 : VacuumState × List Publication :=
      if st.initialStatePending = true ∨ st.lastRunMode ≠ some runMode then
        ({ r1.1 with lastRunMode := some runMode }, [Publication.runMode runMode])
      else (r1.1, [])
    (r2.1, r1.2 ++ r2.2)

/-- Translation of one whole `updateVacuumState(vacuum)` cycle
(lines 903-1054).  The `initialStatePending := false` update models the
conditional clear of lines 980-983 (clearing an already-false flag is the
identity).  The final field updates model lines 1048-1049; the outer catch
(lines 1050-1053, reachable in the model only through `publishRaise`) sets
`online := false` instead. -/
def updateVacuumState (cfg : Config) (st : VacuumState) (inp : PollInputs) :
    VacuumState × List Publication × List LogEvent :=
  match inp.attrs with
  | none => (st, [], [⟨Severity.warn, "fetch-state-attributes-failed"⟩])
  | some attributes =>
    if inp.publishRaise = true then
      ({ st with online := false }, [], [⟨Severity.error, "update-state-error"⟩])
    else
      let r1 := batteryPass st attributes
      let r2 := statusPass r1.1 attributes
      let st3 := { r2.1 with initialStatePending := false }
      let r3 := positionPass cfg st3 inp.now inp.pos
      let r4 :=
        if r3.1.consumables ≠ [] then
          updateConsumableStatesForVacuum cfg r3.1 inp.now inp.cons
        else (r3.1, [], [])
      ({ r4.1 with lastSeen := inp.now, online := true },
        r1.2 ++ r2.2 ++ r3.2.1 ++ r4.2.1,
        r3.2.2 ++ r4.2.2)

/-- Is a publication one of the four change-tracked attributes? -/
def isTrackedPublication : Publication → Bool
  | Publication.batteryLevel _ => true
  | Publication.batteryChargeState _ => true
  | Publication.operationalState _ => true
  | Publication.runMode _ => true
  | _ => false

/-- The four-tracked-attribute publications of a cycle, in emission order. -/
def trackedPubs (pubs : List Publication) : List Publication :=
  pubs.filter isTrackedPublication

/-! ### Helper lemmas about the poll cycle -/

theorem batteryPass_split (st : VacuumState) (attributes : List StateAttr) (level : Rat)
    (flag : String) (hb : findBatteryAttr attributes = some (level, flag)) :
    batteryPass st attributes =
      ({ st with lastBatteryLevel := some (jsRound (level * 2)),
                 lastBatteryChargeState := some (batChargeStateOf flag) },
       (if st.initialStatePending = true ∨ st.lastBatteryLevel ≠ some (jsRound (level * 2)) then
          [Publication.batteryLevel (jsRound (level * 2))] else []) ++
       (if st.initialStatePending = true ∨
            st.lastBatteryChargeState ≠ some (batChargeStateOf flag) then
          [Publication.batteryChargeState (batChargeStateOf flag)] else [])) := by
  by_cases h1 : st.initialStatePending = true ∨ st.lastBatteryLevel ≠ some (jsRound (level * 2)) <;>
    by_cases h2 : st.initialStatePending = true ∨
      st.lastBatteryChargeState ≠ some (batChargeStateOf flag)
  · simp [batteryPass, hb, h1, h2]
  · push_neg at h2
    obtain ⟨h2a, h2b⟩ := h2
    cases st
    simp_all [batteryPass]
  · push_neg at h1
    obtain ⟨h1a, h1b⟩ := h1
    cases st
    simp_all [batteryPass]
  · push_neg at h1 h2
    obtain ⟨h1a, h1b⟩ := h1
    obtain ⟨h2a, h2b⟩ := h2
    cases st
    simp_all [batteryPass]

theorem batteryPass_none (st : VacuumState) (attributes : List StateAttr)
    (hb : findBatteryAttr attributes = none) :
    batteryPass st attributes = (st, []) := by
  simp [batteryPass, hb]

theorem statusPass_split (st : VacuumState) (attributes : List StateAttr) (statusValue : String)
    (hs : findStatusAttr attributes = some statusValue) :
    statusPass st attributes =
      ({ st with
          lastOperationalState :=
            some (mapValetudoStatusToOperationalState statusValue (findDockStatusAttr attributes)),
          lastRunMode := some (mapValetudoStatusToRunMode statusValue) },
       (if st.initialStatePending = true ∨ st.lastOperationalState ≠
            some (mapValetudoStatusToOperationalState statusValue (findDockStatusAttr attributes))
        then
          [Publication.operationalState
            (mapValetudoStatusToOperationalState statusValue (findDockStatusAttr attributes))]
        else []) ++
       (if st.initialStatePending = true ∨
            st.lastRunMode ≠ some (mapValetudoStatusToRunMode statusValue) then
          [Publication.runMode (mapValetudoStatusToRunMode statusValue)] else [])) := by
  by_cases h1 : st.initialStatePending = true ∨ st.lastOperationalState ≠
      some (mapValetudoStatusToOperationalState statusValue (findDockStatusAttr attributes)) <;>
    by_cases h2 : st.initialStatePending = true ∨
      st.lastRunMode ≠ some (mapValetudoStatusToRunMode statusValue)
  · simp [statusPass, hs, h1, h2]
  · push_neg at h2
    obtain ⟨h2a, h2b⟩ := h2
    cases st
    simp_all [statusPass]
  · push_neg at h1
    obtain ⟨h1a, h1b⟩ := h1
    cases st
    simp_all [statusPass]
  · push_neg at h1 h2
    obtain ⟨h1a, h1b⟩ := h1
    obtain ⟨h2a, h2b⟩ := h2
    cases st
    simp_all [statusPass]

theorem statusPass_none (st : VacuumState) (attributes : List StateAttr)
    (hs : findStatusAttr attributes = none) :
    statusPass st attributes = (st, []) := by
  simp [statusPass, hs]

theorem positionPass_proj (cfg : Config) (st : VacuumState) (now : Rat) (inp : PositionInputs) :
    (positionPass cfg st now inp).1.lastBatteryLevel = st.lastBatteryLevel ∧
    (positionPass cfg st now inp).1.lastBatteryChargeState = st.lastBatteryChargeState ∧
    (positionPass cfg st now inp).1.lastOperationalState = st.lastOperationalState ∧
    (positionPass cfg st now inp).1.lastRunMode = st.lastRunMode ∧
    (positionPass cfg st now inp).1.initialStatePending = st.initialStatePending ∧
    (positionPass cfg st now inp).1.consumables = st.consumables ∧
    (positionPass cfg st now inp).1.lastConsumablesCheck = st.lastConsumablesCheck ∧
    (∀ p ∈ (positionPass cfg st now inp).2.1, isTrackedPublication p = false) := by
  rw [positionPass]
  split
  · split
    · simp
    · simp only [positionPassCore, refreshMapCacheForVacuum]
      repeat' split
      all_goals simp_all [isTrackedPublication]
  · simp

theorem processConsumables_proj (ml : MaxLifetimes) (thr : Int) (cs : List Consumable) :
    ∀ st : VacuumState,
    (processConsumables ml thr st cs).1.lastBatteryLevel = st.lastBatteryLevel ∧
    (processConsumables ml thr st cs).1.lastBatteryChargeState = st.lastBatteryChargeState ∧
    (processConsumables ml thr st cs).1.lastOperationalState = st.lastOperationalState ∧
    (processConsumables ml thr st cs).1.lastRunMode = st.lastRunMode ∧
    (processConsumables ml thr st cs).1.initialStatePending = st.initialStatePending ∧
    (∀ p ∈ (processConsumables ml thr st cs).2.1, isTrackedPublication p = false) := by
  induction cs with
  | nil => intro st; simp [processConsumables]
  | cons c rest ih =>
    intro st
    rw [processConsumables]
    cases hl : lookupEntry st.consumables (getConsumableName c) with
    | none =>
      simpa using ih st
    | some entry =>
      obtain ⟨i1, i2, i3, i4, i5, i6⟩ :=
        ih { st with consumables := (updateEntry st.consumables (getConsumableName c) (checkConsumable ml thr entry c).1) }
      refine ⟨by simpa using i1, by simpa using i2, by simpa using i3, by simpa using i4,
        by simpa using i5, ?_⟩
      intro p hp
      simp only [List.mem_append] at hp
      rcases hp with hp | hp
      · cases hpub : (checkConsumable ml thr entry c).2.published with
        | none => rw [hpub] at hp; simp at hp
        | some v =>
          rw [hpub] at hp
          simp only [List.mem_singleton] at hp
          subst hp
          simp [isTrackedPublication]
      · exact i6 p hp

theorem updateConsumableStates_proj (cfg : Config) (st : VacuumState) (now : Rat)
    (inp : ConsInputs) :
    (updateConsumableStatesForVacuum cfg st now inp).1.lastBatteryLevel = st.lastBatteryLevel ∧
    (updateConsumableStatesForVacuum cfg st now inp).1.lastBatteryChargeState
      = st.lastBatteryChargeState ∧
    (updateConsumableStatesForVacuum cfg st now inp).1.lastOperationalState
      = st.lastOperationalState ∧
    (updateConsumableStatesForVacuum cfg st now inp).1.lastRunMode = st.lastRunMode ∧
    (updateConsumableStatesForVacuum cfg st now inp).1.initialStatePending
      = st.initialStatePending ∧
    (∀ p ∈ (updateConsumableStatesForVacuum cfg st now inp).2.1,
      isTrackedPublication p = false) := by
  rw [updateConsumableStatesForVacuum]
  split
  · simp
  · split
    · simp
    · cases hf : inp.fetch with
      | none => simp
      | some cs =>
        simpa using processConsumables_proj (resolveMaxLifetimes cfg.maxLifetimes)
          (resolveWarningThreshold cfg.warningThreshold) cs
          { st with lastConsumablesCheck := now }

theorem trackedPubs_append (a b : List Publication) :
    trackedPubs (a ++ b) = trackedPubs a ++ trackedPubs b := by
  simp [trackedPubs, List.filter_append]

theorem trackedPubs_eq_nil (a : List Publication)
    (h : ∀ p ∈ a, isTrackedPublication p = false) : trackedPubs a = [] := by
  simp only [trackedPubs, List.filter_eq_nil_iff]
  intro p hp
  simp [h p hp]

theorem trackedPubs_if_single (c : Prop) [Decidable c] (p : Publication)
    (hp : isTrackedPublication p = true) :
    trackedPubs (if c then [p] else []) = if c then [p] else [] := by
  split <;> simp [trackedPubs, hp]

/-- Computed form of one successful poll cycle (non-null attribute snapshot,
no exception). -/
theorem updateVacuumState_eq (cfg : Config) (st : VacuumState) (inp : PollInputs)
    (attributes : List StateAttr) (ha : inp.attrs = some attributes)
    (hr : inp.publishRaise = false) :
    updateVacuumState cfg st inp =
      (let r1 := batteryPass st attributes
       let r2 := statusPass r1.1 attributes
       let st3 := { r2.1 with initialStatePending := false }
       let r3 := positionPass cfg st3 inp.now inp.pos
       let r4 := if r3.1.consumables ≠ [] then
           updateConsumableStatesForVacuum cfg r3.1 inp.now inp.cons else (r3.1, [], [])
       ({ r4.1 with lastSeen := inp.now, online := true },
         r1.2 ++ r2.2 ++ r3.2.1 ++ r4.2.1, r3.2.2 ++ r4.2.2)) := by
  rw [updateVacuumState, ha]
  simp [hr]

theorem tail_lastBatteryLevel (cfg : Config) (inp : PollInputs) (s3 : VacuumState) :
    (if (positionPass cfg s3 inp.now inp.pos).1.consumables ≠ [] then
        updateConsumableStatesForVacuum cfg (positionPass cfg s3 inp.now inp.pos).1 inp.now inp.cons
      else ((positionPass cfg s3 inp.now inp.pos).1, [], [])).1.lastBatteryLevel
      = s3.lastBatteryLevel := by
  split
  · exact ((updateConsumableStates_proj cfg _ inp.now inp.cons).1).trans
      (positionPass_proj cfg s3 inp.now inp.pos).1
  · exact (positionPass_proj cfg s3 inp.now inp.pos).1

theorem tail_lastBatteryChargeState (cfg : Config) (inp : PollInputs) (s3 : VacuumState) :
    (if (positionPass cfg s3 inp.now inp.pos).1.consumables ≠ [] then
        updateConsumableStatesForVacuum cfg (positionPass cfg s3 inp.now inp.pos).1 inp.now inp.cons
      else ((positionPass cfg s3 inp.now inp.pos).1, [], [])).1.lastBatteryChargeState
      = s3.lastBatteryChargeState := by
  split
  · exact ((updateConsumableStates_proj cfg _ inp.now inp.cons).2.1).trans
      (positionPass_proj cfg s3 inp.now inp.pos).2.1
  · exact (positionPass_proj cfg s3 inp.now inp.pos).2.1

theorem tail_lastOperationalState (cfg : Config) (inp : PollInputs) (s3 : VacuumState) :
    (if (positionPass cfg s3 inp.now inp.pos).1.consumables ≠ [] then
        updateConsumableStatesForVacuum cfg (positionPass cfg s3 inp.now inp.pos).1 inp.now inp.cons
      else ((positionPass cfg s3 inp.now inp.pos).1, [], [])).1.lastOperationalState
      = s3.lastOperationalState := by
  split
  · exact ((updateConsumableStates_proj cfg _ inp.now inp.cons).2.2.1).trans
      (positionPass_proj cfg s3 inp.now inp.pos).2.2.1
  · exact (positionPass_proj cfg s3 inp.now inp.pos).2.2.1

theorem tail_lastRunMode (cfg : Config) (inp : PollInputs) (s3 : VacuumState) :
    (if (positionPass cfg s3 inp.now inp.pos).1.consumables ≠ [] then
        updateConsumableStatesForVacuum cfg (positionPass cfg s3 inp.now inp.pos).1 inp.now inp.cons
      else ((positionPass cfg s3 inp.now inp.pos).1, [], [])).1.lastRunMode
      = s3.lastRunMode := by
  split
  · exact ((updateConsumableStates_proj cfg _ inp.now inp.cons).2.2.2.1).trans
      (positionPass_proj cfg s3 inp.now inp.pos).2.2.2.1
  · exact (positionPass_proj cfg s3 inp.now inp.pos).2.2.2.1

theorem tail_initialStatePending (cfg : Config) (inp : PollInputs) (s3 : VacuumState) :
    (if (positionPass cfg s3 inp.now inp.pos).1.consumables ≠ [] then
        updateConsumableStatesForVacuum cfg (positionPass cfg s3 inp.now inp.pos).1 inp.now inp.cons
      else ((positionPass cfg s3 inp.now inp.pos).1, [], [])).1.initialStatePending
      = s3.initialStatePending := by
  split
  · exact ((updateConsumableStates_proj cfg _ inp.now inp.cons).2.2.2.2.1).trans
      (positionPass_proj cfg s3 inp.now inp.pos).2.2.2.2.1
  · exact (positionPass_proj cfg s3 inp.now inp.pos).2.2.2.2.1

/-- Of all the publications of a successful cycle, exactly the four-attribute
ones come from the battery and status passes. -/
theorem updateVacuumState_trackedPubs (cfg : Config) (st : VacuumState) (inp : PollInputs)
    (attributes : List StateAttr) (ha : inp.attrs = some attributes)
    (hr : inp.publishRaise = false) :
    trackedPubs (updateVacuumState cfg st inp).2.1 =
      trackedPubs ((batteryPass st attributes).2
        ++ (statusPass (batteryPass st attributes).1 attributes).2) := by
  rw [updateVacuumState_eq cfg st inp attributes ha hr]
  simp only []
  have hgen : ∀ s2 : VacuumState,
      trackedPubs (positionPass cfg s2 inp.now inp.pos).2.1 = [] :=
    fun s2 => trackedPubs_eq_nil _ (positionPass_proj cfg s2 inp.now inp.pos).2.2.2.2.2.2.2
  have hgen4 : ∀ s3 : VacuumState,
      trackedPubs ((if (positionPass cfg s3 inp.now inp.pos).1.consumables ≠ [] then
        updateConsumableStatesForVacuum cfg (positionPass cfg s3 inp.now inp.pos).1 inp.now
          inp.cons
      else ((positionPass cfg s3 inp.now inp.pos).1, [], [])).2.1) = [] := by
    intro s3
    split
    · exact trackedPubs_eq_nil _ (updateConsumableStates_proj cfg _ inp.now inp.cons).2.2.2.2.2
    · simp [trackedPubs]
  rw [trackedPubs_append, trackedPubs_append, trackedPubs_append, hgen, hgen4]
  simp [trackedPubs_append]

/-- The four-attribute publications of a successful cycle whose snapshot
carries a battery and a status record: each is emitted iff the pending flag
is set or the computed value differs from the stored last value, in the fixed
order battery level, charge state, operational state, run mode. -/
theorem updateVacuumState_master_pubs (cfg : Config) (st : VacuumState) (inp : PollInputs)
    (attributes : List StateAttr) (level : Rat) (flag : String) (statusValue : String)
    (ha : inp.attrs = some attributes) (hr : inp.publishRaise = false)
    (hb : findBatteryAttr attributes = some (level, flag))
    (hs : findStatusAttr attributes = some statusValue) :
    trackedPubs (updateVacuumState cfg st inp).2.1 =
      (if st.initialStatePending = true ∨ st.lastBatteryLevel ≠ some (jsRound (level * 2)) then
        [Publication.batteryLevel (jsRound (level * 2))] else []) ++
      (if st.initialStatePending = true ∨
          st.lastBatteryChargeState ≠ some (batChargeStateOf flag) then
        [Publication.batteryChargeState (batChargeStateOf flag)] else []) ++
      (if st.initialStatePending = true ∨ st.lastOperationalState ≠
          some (mapValetudoStatusToOperationalState statusValue (findDockStatusAttr attributes))
       then
        [Publication.operationalState
          (mapValetudoStatusToOperationalState statusValue (findDockStatusAttr attributes))]
       else []) ++
      (if st.initialStatePending = true ∨
          st.lastRunMode ≠ some (mapValetudoStatusToRunMode statusValue) then
        [Publication.runMode (mapValetudoStatusToRunMode statusValue)] else []) := by
  rw [updateVacuumState_trackedPubs cfg st inp attributes ha hr,
    batteryPass_split st attributes level flag hb]
  simp only []
  rw [statusPass_split ({ st with lastBatteryLevel := some (jsRound (level * 2)), lastBatteryChargeState := some (batChargeStateOf flag) }) attributes statusValue hs]
  simp only []
  rw [trackedPubs_append, trackedPubs_append, trackedPubs_append,
    trackedPubs_if_single _ (Publication.batteryLevel (jsRound (level * 2))) rfl,
    trackedPubs_if_single _ (Publication.batteryChargeState (batChargeStateOf flag)) rfl,
    trackedPubs_if_single _ (Publication.operationalState
      (mapValetudoStatusToOperationalState statusValue (findDockStatusAttr attributes))) rfl,
    trackedPubs_if_single _ (Publication.runMode (mapValetudoStatusToRunMode statusValue)) rfl]
  simp [List.append_assoc]

/-- The stored last-published values after a successful cycle whose snapshot
carries a battery and a status record are exactly the computed values, the
pending-initial-state flag is cleared, and the device is marked online. -/
theorem updateVacuumState_master_state (cfg : Config) (st : VacuumState) (inp : PollInputs)
    (attributes : List StateAttr) (level : Rat) (flag : String) (statusValue : String)
    (ha : inp.attrs = some attributes) (hr : inp.publishRaise = false)
    (hb : findBatteryAttr attributes = some (level, flag))
    (hs : findStatusAttr attributes = some statusValue) :
    (updateVacuumState cfg st inp).1.lastBatteryLevel = some (jsRound (level * 2)) ∧
    (updateVacuumState cfg st inp).1.lastBatteryChargeState = some (batChargeStateOf flag) ∧
    (updateVacuumState cfg st inp).1.lastOperationalState =
      some (mapValetudoStatusToOperationalState statusValue (findDockStatusAttr attributes)) ∧
    (updateVacuumState cfg st inp).1.lastRunMode = some (mapValetudoStatusToRunMode statusValue) ∧
    (updateVacuumState cfg st inp).1.initialStatePending = false ∧
    (updateVacuumState cfg st inp).1.online = true := by
  rw [updateVacuumState_eq cfg st inp attributes ha hr,
    batteryPass_split st attributes level flag hb]
  simp only []
  rw [statusPass_split ({ st with lastBatteryLevel := some (jsRound (level * 2)), lastBatteryChargeState := some (batChargeStateOf flag) }) attributes statusValue hs]
  simp only [tail_lastBatteryLevel, tail_lastBatteryChargeState, tail_lastOperationalState,
    tail_lastRunMode, tail_initialStatePending]
  simp

theorem updateVacuumState_nullFetch (cfg : Config) (st : VacuumState) (inp : PollInputs)
    (ha : inp.attrs = none) :
    updateVacuumState cfg st inp
      = (st, [], [⟨Severity.warn, "fetch-state-attributes-failed"⟩]) := by
  rw [updateVacuumState, ha]

theorem updateVacuumState_raise (cfg : Config) (st : VacuumState) (inp : PollInputs)
    (attributes : List StateAttr) (ha : inp.attrs = some attributes)
    (hr : inp.publishRaise = true) :
    updateVacuumState cfg st inp
      = ({ st with online := false }, [], [⟨Severity.error, "update-state-error"⟩]) := by
  rw [updateVacuumState, ha]
  simp [hr]

theorem updateVacuumState_online (cfg : Config) (st : VacuumState) (inp : PollInputs)
    (attributes : List StateAttr) (ha : inp.attrs = some attributes)
    (hr : inp.publishRaise = false) :
    (updateVacuumState cfg st inp).1.online = true := by
  rw [updateVacuumState_eq cfg st inp attributes ha hr]

theorem updateVacuumState_flag_clear (cfg : Config) (st : VacuumState) (inp : PollInputs)
    (attributes : List StateAttr) (ha : inp.attrs = some attributes)
    (hr : inp.publishRaise = false) :
    (updateVacuumState cfg st inp).1.initialStatePending = false := by
  rw [updateVacuumState_eq cfg st inp attributes ha hr]
  simp only []
  simp only [tail_initialStatePending]

theorem updateVacuumState_flag_mono (cfg : Config) (st : VacuumState) (inp : PollInputs)
    (h : st.initialStatePending = false) :
    (updateVacuumState cfg st inp).1.initialStatePending = false := by
  cases ha : inp.attrs with
  | none => rw [updateVacuumState_nullFetch cfg st inp ha]; exact h
  | some attributes =>
    by_cases hr : inp.publishRaise = true
    · rw [updateVacuumState_raise cfg st inp attributes ha hr]; exact h
    · exact updateVacuumState_flag_clear cfg st inp attributes ha (by simpa using hr)

theorem batteryPass_frame (st : VacuumState) (attributes : List StateAttr) :
    (batteryPass st attributes).1.areaToSegmentMap = st.areaToSegmentMap ∧
    (batteryPass st attributes).1.consumables = st.consumables ∧
    (batteryPass st attributes).1.lastConsumablesCheck = st.lastConsumablesCheck := by
  rcases h : findBatteryAttr attributes with _ | ⟨l, f⟩ <;> simp only [batteryPass, h] <;>
    (try split_ifs) <;> simp

theorem statusPass_frame (st : VacuumState) (attributes : List StateAttr) :
    (statusPass st attributes).1.areaToSegmentMap = st.areaToSegmentMap ∧
    (statusPass st attributes).1.consumables = st.consumables ∧
    (statusPass st attributes).1.lastConsumablesCheck = st.lastConsumablesCheck := by
  rcases h : findStatusAttr attributes with _ | sv <;> simp only [statusPass, h] <;>
    (try split_ifs) <;> simp

/-! ### Concrete sample data for witnesses -/

def sampleConfig : Config := ⟨false, none, none, none⟩

def sampleState : VacuumState :=
  ⟨some 100, some 1, some 0x42, some 1, none, false, true, 0, none, 0, 0, [], []⟩

def sampleStatePending : VacuumState :=
  ⟨none, none, none, none, none, true, true, 0, none, 0, 0, [], []⟩

def sampleAttrs : List StateAttr :=
  [StateAttr.battery 50 "charging", StateAttr.status "cleaning"]

def samplePollInputs : PollInputs :=
  ⟨some sampleAttrs, false, 1000000, ⟨false, none, none, none⟩, ⟨false, none⟩⟩

def sampleNullPollInputs : PollInputs :=
  ⟨none, false, 1000000, ⟨false, none, none, none⟩, ⟨false, none⟩⟩

/-- C1: after the pending-initial-state flag is cleared, each of the four
tracked attributes is published in a poll cycle iff its newly computed value
differs from the stored last-published value (first conjunct: the cycle's
tracked publications are exactly the changed ones, in order); hence a second
consecutive cycle whose snapshot yields identical computed values publishes
none of the four (second conjunct), and one differing only in battery level
publishes exactly the battery level (third conjunct). -/
theorem C1_changeGating :
    (∀ (cfg : Config) (st : VacuumState) (inp : PollInputs) (attributes : List StateAttr)
      (level : Rat) (flag statusValue : String),
      st.initialStatePending = false →
      inp.attrs = some attributes → inp.publishRaise = false →
      findBatteryAttr attributes = some (level, flag) →
      findStatusAttr attributes = some statusValue →
      trackedPubs (updateVacuumState cfg st inp).2.1 =
        (if st.lastBatteryLevel ≠ some (jsRound (level * 2)) then
          [Publication.batteryLevel (jsRound (level * 2))] else []) ++
        (if st.lastBatteryChargeState ≠ some (batChargeStateOf flag) then
          [Publication.batteryChargeState (batChargeStateOf flag)] else []) ++
        (if st.lastOperationalState ≠ some (mapValetudoStatusToOperationalState statusValue
            (findDockStatusAttr attributes)) then
          [Publication.operationalState (mapValetudoStatusToOperationalState statusValue
            (findDockStatusAttr attributes))] else []) ++
        (if st.lastRunMode ≠ some (mapValetudoStatusToRunMode statusValue) then
          [Publication.runMode (mapValetudoStatusToRunMode statusValue)] else [])) ∧
    (∀ (cfg : Config) (st : VacuumState) (inp1 inp2 : PollInputs)
      (a1 a2 : List StateAttr) (l1 l2 : Rat) (f1 s1 f2 s2 : String),
      inp1.attrs = some a1 → inp1.publishRaise = false →
      findBatteryAttr a1 = some (l1, f1) → findStatusAttr a1 = some s1 →
      inp2.attrs = some a2 → inp2.publishRaise = false →
      findBatteryAttr a2 = some (l2, f2) → findStatusAttr a2 = some s2 →
      jsRound (l1 * 2) = jsRound (l2 * 2) →
      batChargeStateOf f1 = batChargeStateOf f2 →
      mapValetudoStatusToOperationalState s1 (findDockStatusAttr a1)
        = mapValetudoStatusToOperationalState s2 (findDockStatusAttr a2) →
      mapValetudoStatusToRunMode s1 = mapValetudoStatusToRunMode s2 →
      trackedPubs (updateVacuumState cfg (updateVacuumState cfg st inp1).1 inp2).2.1 = []) ∧
    (∀ (cfg : Config) (st : VacuumState) (inp1 inp2 : PollInputs)
      (a1 a2 : List StateAttr) (l1 l2 : Rat) (f1 s1 f2 s2 : String),
      inp1.attrs = some a1 → inp1.publishRaise = false →
      findBatteryAttr a1 = some (l1, f1) → findStatusAttr a1 = some s1 →
      inp2.attrs = some a2 → inp2.publishRaise = false →
      findBatteryAttr a2 = some (l2, f2) → findStatusAttr a2 = some s2 →
      jsRound (l1 * 2) ≠ jsRound (l2 * 2) →
      batChargeStateOf f1 = batChargeStateOf f2 →
      mapValetudoStatusToOperationalState s1 (findDockStatusAttr a1)
        = mapValetudoStatusToOperationalState s2 (findDockStatusAttr a2) →
      mapValetudoStatusToRunMode s1 = mapValetudoStatusToRunMode s2 →
      trackedPubs (updateVacuumState cfg (updateVacuumState cfg st inp1).1 inp2).2.1
        = [Publication.batteryLevel (jsRound (l2 * 2))]) := by
  refine ⟨?_, ?_, ?_⟩
  · intro cfg st inp attributes level flag statusValue hflag ha hr hb hs
    rw [updateVacuumState_master_pubs cfg st inp attributes level flag statusValue ha hr hb hs]
    simp [hflag]
  · intro cfg st inp1 inp2 a1 a2 l1 l2 f1 s1 f2 s2 ha1 hr1 hb1 hs1 ha2 hr2 hb2 hs2
      hbat hchg hop hrm
    obtain ⟨m1, m2, m3, m4, m5, _⟩ :=
      updateVacuumState_master_state cfg st inp1 a1 l1 f1 s1 ha1 hr1 hb1 hs1
    rw [updateVacuumState_master_pubs cfg _ inp2 a2 l2 f2 s2 ha2 hr2 hb2 hs2]
    simp [m1, m2, m3, m4, m5, ← hbat, ← hchg, ← hop, ← hrm]
  · intro cfg st inp1 inp2 a1 a2 l1 l2 f1 s1 f2 s2 ha1 hr1 hb1 hs1 ha2 hr2 hb2 hs2
      hbat hchg hop hrm
    obtain ⟨m1, m2, m3, m4, m5, _⟩ :=
      updateVacuumState_master_state cfg st inp1 a1 l1 f1 s1 ha1 hr1 hb1 hs1
    rw [updateVacuumState_master_pubs cfg _ inp2 a2 l2 f2 s2 ha2 hr2 hb2 hs2]
    simp [m1, m2, m3, m4, m5, ← hchg, ← hop, ← hrm, hbat]

/-- Witness for C1 at concrete data: with the flag clear, last battery 100
and charge state 1 matching the snapshot (50% ⇒ 100/200, charging ⇒ 1), and
a status change to "cleaning", exactly the operational state and run mode
publish. -/
theorem C1_changeGating_witness :
    trackedPubs (updateVacuumState sampleConfig sampleState samplePollInputs).2.1 =
      [Publication.operationalState 1, Publication.runMode 2] :=
  (C1_changeGating.1 sampleConfig sampleState samplePollInputs sampleAttrs 50 "charging"
    "cleaning" rfl rfl rfl rfl rfl).trans (by decide)

/-- C4: on a cycle with the pending-initial-state flag set and a snapshot
carrying battery and status records, all four tracked attributes publish
exactly once (first conjunct), the flag is cleared at the end of any
successful cycle (second conjunct), and no cycle ever sets a cleared flag
again (third conjunct), so no later cycle forces unconditional publication. -/
theorem C4_initialStateOverride :
    (∀ (cfg : Config) (st : VacuumState) (inp : PollInputs) (attributes : List StateAttr)
      (level : Rat) (flag statusValue : String),
      st.initialStatePending = true →
      inp.attrs = some attributes → inp.publishRaise = false →
      findBatteryAttr attributes = some (level, flag) →
      findStatusAttr attributes = some statusValue →
      trackedPubs (updateVacuumState cfg st inp).2.1 =
        [Publication.batteryLevel (jsRound (level * 2)),
         Publication.batteryChargeState (batChargeStateOf flag),
         Publication.operationalState (mapValetudoStatusToOperationalState statusValue
           (findDockStatusAttr attributes)),
         Publication.runMode (mapValetudoStatusToRunMode statusValue)]) ∧
    (∀ (cfg : Config) (st : VacuumState) (inp : PollInputs) (attributes : List StateAttr),
      inp.attrs = some attributes → inp.publishRaise = false →
      (updateVacuumState cfg st inp).1.initialStatePending = false) ∧
    (∀ (cfg : Config) (st : VacuumState) (inp : PollInputs),
      st.initialStatePending = false →
      (updateVacuumState cfg st inp).1.initialStatePending = false) := by
  refine ⟨?_, ?_, ?_⟩
  · intro cfg st inp attributes level flag statusValue hflag ha hr hb hs
    rw [updateVacuumState_master_pubs cfg st inp attributes level flag statusValue ha hr hb hs]
    simp [hflag]
  · exact fun cfg st inp attributes ha hr => updateVacuumState_flag_clear cfg st inp attributes ha hr
  · exact fun cfg st inp h => updateVacuumState_flag_mono cfg st inp h

/-- Witness for C4: from a fresh device record with the flag set, the sample
snapshot publishes all four attributes and clears the flag. -/
theorem C4_initialStateOverride_witness :
    trackedPubs (updateVacuumState sampleConfig sampleStatePending samplePollInputs).2.1 =
      [Publication.batteryLevel 100, Publication.batteryChargeState 1,
       Publication.operationalState 1, Publication.runMode 2] ∧
    (updateVacuumState sampleConfig sampleStatePending samplePollInputs).1.initialStatePending
      = false :=
  ⟨(C4_initialStateOverride.1 sampleConfig sampleStatePending samplePollInputs sampleAttrs 50
      "charging" "cleaning" rfl rfl rfl rfl rfl).trans (by decide),
   C4_initialStateOverride.2.1 sampleConfig sampleStatePending samplePollInputs sampleAttrs
     rfl rfl⟩

/-- Counterexample to C5 as stated: with a device currently online, a poll
cycle whose state-attribute fetch yields no data (`getStateAttributes`
returned null) leaves `online` at `true` — the device is not marked offline
(Degraded), contradicting the claim. -/
theorem C5_counterexample_notMarkedOffline :
    sampleState.online = true ∧
    (updateVacuumState sampleConfig sampleState sampleNullPollInputs).1.online = true := by
  constructor
  · rfl
  · rfl

/-- C5 (amended): whenever a poll cycle's primary state-attribute fetch
yields no attribute data, the cycle ends early with every remaining step
skipped — no publication is issued, only a warning is logged, and the device
record (in particular its `online` flag) is left exactly unchanged rather
than being marked offline.  `online` is set to `false` only when an exception
is thrown inside the cycle (the outer catch; third conjunct).  The next
scheduled tick retries unconditionally with no backoff; scheduling is driven
by a fixed `setInterval` cadence outside this model. -/
theorem C5_amended_fetchFailure :
    (∀ (cfg : Config) (st : VacuumState) (inp : PollInputs), inp.attrs = none →
      updateVacuumState cfg st inp
        = (st, [], [⟨Severity.warn, "fetch-state-attributes-failed"⟩])) ∧
    (∀ (cfg : Config) (st : VacuumState) (inp : PollInputs), inp.attrs = none →
      (updateVacuumState cfg st inp).1.online = st.online) ∧
    (∀ (cfg : Config) (st : VacuumState) (inp : PollInputs) (attributes : List StateAttr),
      inp.attrs = some attributes → inp.publishRaise = true →
      (updateVacuumState cfg st inp).1.online = false) := by
  refine ⟨?_, ?_, ?_⟩
  · exact fun cfg st inp ha => updateVacuumState_nullFetch cfg st inp ha
  · intro cfg st inp ha
    rw [updateVacuumState_nullFetch cfg st inp ha]
  · intro cfg st inp attributes ha hr
    rw [updateVacuumState_raise cfg st inp attributes ha hr]

/-- Witness for C5 (amended) at the sample device: the failed fetch changes
nothing and keeps the device online. -/
theorem C5_amended_fetchFailure_witness :
    updateVacuumState sampleConfig sampleState sampleNullPollInputs
      = (sampleState, [], [⟨Severity.warn, "fetch-state-attributes-failed"⟩]) ∧
    (updateVacuumState sampleConfig sampleState sampleNullPollInputs).1.online
      = sampleState.online :=
  ⟨C5_amended_fetchFailure.1 sampleConfig sampleState sampleNullPollInputs rfl,
   C5_amended_fetchFailure.2.1 sampleConfig sampleState sampleNullPollInputs rfl⟩

/-- C10: a cycle whose primary fetch yields no data returns before publishing
anything and leaves the device record exactly unchanged — all last-published
values, the pending-initial-state flag, the map cache and the consumable
entries included (first conjunct, full state equality); consequently a later
successful cycle still performs the forced full initial publication when the
flag was pending (second conjunct). -/
theorem C10_nullFetch_preservesRecord :
    (∀ (cfg : Config) (st : VacuumState) (inp : PollInputs), inp.attrs = none →
      (updateVacuumState cfg st inp).1 = st ∧ (updateVacuumState cfg st inp).2.1 = []) ∧
    (∀ (cfg : Config) (st : VacuumState) (inp1 inp2 : PollInputs)
      (attributes : List StateAttr) (level : Rat) (flag statusValue : String),
      inp1.attrs = none → st.initialStatePending = true →
      inp2.attrs = some attributes → inp2.publishRaise = false →
      findBatteryAttr attributes = some (level, flag) →
      findStatusAttr attributes = some statusValue →
      trackedPubs (updateVacuumState cfg (updateVacuumState cfg st inp1).1 inp2).2.1 =
        [Publication.batteryLevel (jsRound (level * 2)),
         Publication.batteryChargeState (batChargeStateOf flag),
         Publication.operationalState (mapValetudoStatusToOperationalState statusValue
           (findDockStatusAttr attributes)),
         Publication.runMode (mapValetudoStatusToRunMode statusValue)]) := by
  constructor
  · intro cfg st inp ha
    rw [updateVacuumState_nullFetch cfg st inp ha]
    exact ⟨rfl, rfl⟩
  · intro cfg st inp1 inp2 attributes level flag statusValue ha1 hflag ha2 hr2 hb hs
    rw [(updateVacuumState_nullFetch cfg st inp1 ha1 ▸ rfl :
      (updateVacuumState cfg st inp1).1 = st)]
    rw [updateVacuumState_master_pubs cfg st inp2 attributes level flag statusValue ha2 hr2 hb hs]
    simp [hflag]

/-- Witness for C10: the failed cycle preserves a pending-flag record and the
next successful cycle still publishes all four tracked attributes. -/
theorem C10_nullFetch_preservesRecord_witness :
    ((updateVacuumState sampleConfig sampleStatePending sampleNullPollInputs).1
        = sampleStatePending ∧
      (updateVacuumState sampleConfig sampleStatePending sampleNullPollInputs).2.1 = []) ∧
    trackedPubs (updateVacuumState sampleConfig
        (updateVacuumState sampleConfig sampleStatePending sampleNullPollInputs).1
        samplePollInputs).2.1 =
      [Publication.batteryLevel 100, Publication.batteryChargeState 1,
       Publication.operationalState 1, Publication.runMode 2] :=
  ⟨C10_nullFetch_preservesRecord.1 sampleConfig sampleStatePending sampleNullPollInputs rfl,
   (C10_nullFetch_preservesRecord.2 sampleConfig sampleStatePending sampleNullPollInputs
      samplePollInputs sampleAttrs 50 "charging" "cleaning" rfl rfl rfl rfl rfl rfl).trans
    (by decide)⟩

theorem positionPass_raise_eq (cfg : Config) (inp : PollInputs) (s3 : VacuumState) :
    positionPass cfg s3 inp.now { inp.pos with raise := true }
      = if cfg.positionTrackingEnabled = true ∧ s3.areaToSegmentMap ≠ [] then
          (s3, [], [⟨Severity.debug, "position-tracking-error"⟩])
        else (s3, [], []) := by
  by_cases hc : cfg.positionTrackingEnabled = true ∧ s3.areaToSegmentMap ≠ []
  · rw [positionPass, if_pos hc, if_pos hc]
    simp
  · rw [positionPass, if_neg hc, if_neg hc]

theorem positionPass_failedFetch_eq (cfg : Config) (now : Rat) (s3 : VacuumState) :
    positionPass cfg s3 now (⟨false, none, none, none⟩ : PositionInputs) = (s3, [], []) := by
  by_cases hc : cfg.positionTrackingEnabled = true ∧ s3.areaToSegmentMap ≠ []
  · rw [positionPass, if_pos hc]
    simp only [positionPassCore, refreshMapCacheForVacuum]
    rcases h : s3.mapLayersCache with _ | c <;> simp [h]
  · rw [positionPass, if_neg hc]

theorem updateConsumables_raise_eq (cfg : Config) (now : Rat) (f : Option (List Consumable))
    (s : VacuumState) :
    updateConsumableStatesForVacuum cfg s now (⟨true, f⟩ : ConsInputs)
      = if now - s.lastConsumablesCheck < CONSUMABLES_CHECK_INTERVAL then (s, [], [])
        else ({ s with lastConsumablesCheck := now }, [],
          [⟨Severity.debug, "consumables-error"⟩]) := by
  by_cases hg : now - s.lastConsumablesCheck < CONSUMABLES_CHECK_INTERVAL
  · rw [updateConsumableStatesForVacuum, if_pos hg, if_pos hg]
  · rw [updateConsumableStatesForVacuum, if_neg hg, if_neg hg]
    simp

theorem updateConsumables_failedFetch_eq (cfg : Config) (now : Rat) (s : VacuumState) :
    updateConsumableStatesForVacuum cfg s now (⟨false, none⟩ : ConsInputs)
      = if now - s.lastConsumablesCheck < CONSUMABLES_CHECK_INTERVAL then (s, [], [])
        else ({ s with lastConsumablesCheck := now }, [], []) := by
  by_cases hg : now - s.lastConsumablesCheck < CONSUMABLES_CHECK_INTERVAL
  · rw [updateConsumableStatesForVacuum, if_pos hg, if_pos hg]
  · rw [updateConsumableStatesForVacuum, if_neg hg, if_neg hg]
    simp

theorem posRaise_failSoft (cfg : Config) (st : VacuumState) (inp : PollInputs)
    (attributes : List StateAttr) (ha : inp.attrs = some attributes)
    (hr : inp.publishRaise = false) :
    (updateVacuumState cfg st { inp with pos := { inp.pos with raise := true } }).1
      = (updateVacuumState cfg st { inp with pos := ⟨false, none, none, none⟩ }).1 ∧
    (updateVacuumState cfg st { inp with pos := { inp.pos with raise := true } }).2.1
      = (updateVacuumState cfg st { inp with pos := ⟨false, none, none, none⟩ }).2.1 ∧
    (updateVacuumState cfg st { inp with pos := { inp.pos with raise := true } }).1.online
      = true ∧
    (cfg.positionTrackingEnabled = true → st.areaToSegmentMap ≠ [] →
      LogEvent.mk Severity.debug "position-tracking-error"
        ∈ (updateVacuumState cfg st { inp with pos := { inp.pos with raise := true } }).2.2) := by
  have hEqR := updateVacuumState_eq cfg st { inp with pos := { inp.pos with raise := true } }
    attributes ha hr
  have hEqF := updateVacuumState_eq cfg st { inp with pos := ⟨false, none, none, none⟩ }
    attributes ha hr
  simp only [] at hEqR hEqF
  have hA1 : ∀ (s : VacuumState) (a : List StateAttr),
      (batteryPass s a).1.areaToSegmentMap = s.areaToSegmentMap :=
    fun s a => (batteryPass_frame s a).1
  have hA2 : ∀ (s : VacuumState) (a : List StateAttr),
      (statusPass s a).1.areaToSegmentMap = s.areaToSegmentMap :=
    fun s a => (statusPass_frame s a).1
  rw [positionPass_raise_eq cfg inp] at hEqR
  rw [positionPass_failedFetch_eq cfg inp.now] at hEqF
  simp only [hA1, hA2] at hEqR hEqF
  by_cases hc : cfg.positionTrackingEnabled = true ∧ st.areaToSegmentMap ≠ []
  · rw [if_pos hc] at hEqR
    refine ⟨?_, ?_, ?_, ?_⟩
    · rw [hEqR, hEqF]
    · rw [hEqR, hEqF]
    · rw [hEqR]
    · intro _ _
      rw [hEqR]
      simp
  · rw [if_neg hc] at hEqR
    refine ⟨?_, ?_, ?_, ?_⟩
    · rw [hEqR, hEqF]
    · rw [hEqR, hEqF]
    · rw [hEqR]
    · intro hpt harea
      exact absurd ⟨hpt, harea⟩ hc

theorem consRaise_failSoft (cfg : Config) (st : VacuumState) (inp : PollInputs)
    (attributes : List StateAttr) (ha : inp.attrs = some attributes)
    (hr : inp.publishRaise = false) :
    (updateVacuumState cfg st { inp with cons := ⟨true, inp.cons.fetch⟩ }).1
      = (updateVacuumState cfg st { inp with cons := ⟨false, none⟩ }).1 ∧
    (updateVacuumState cfg st { inp with cons := ⟨true, inp.cons.fetch⟩ }).2.1
      = (updateVacuumState cfg st { inp with cons := ⟨false, none⟩ }).2.1 ∧
    (updateVacuumState cfg st { inp with cons := ⟨true, inp.cons.fetch⟩ }).1.online = true ∧
    (st.consumables ≠ [] →
      CONSUMABLES_CHECK_INTERVAL ≤ inp.now - st.lastConsumablesCheck →
      LogEvent.mk Severity.debug "consumables-error"
        ∈ (updateVacuumState cfg st { inp with cons := ⟨true, inp.cons.fetch⟩ }).2.2) := by
  have hEqR := updateVacuumState_eq cfg st { inp with cons := ⟨true, inp.cons.fetch⟩ }
    attributes ha hr
  have hEqF := updateVacuumState_eq cfg st { inp with cons := ⟨false, none⟩ }
    attributes ha hr
  simp only [] at hEqR hEqF
  have hBc : ∀ (s : VacuumState) (a : List StateAttr),
      (batteryPass s a).1.consumables = s.consumables :=
    fun s a => (batteryPass_frame s a).2.1
  have hSc : ∀ (s : VacuumState) (a : List StateAttr),
      (statusPass s a).1.consumables = s.consumables :=
    fun s a => (statusPass_frame s a).2.1
  have hBl : ∀ (s : VacuumState) (a : List StateAttr),
      (batteryPass s a).1.lastConsumablesCheck = s.lastConsumablesCheck :=
    fun s a => (batteryPass_frame s a).2.2
  have hSl : ∀ (s : VacuumState) (a : List StateAttr),
      (statusPass s a).1.lastConsumablesCheck = s.lastConsumablesCheck :=
    fun s a => (statusPass_frame s a).2.2
  have hPc : ∀ s : VacuumState,
      (positionPass cfg s inp.now inp.pos).1.consumables = s.consumables :=
    fun s => (positionPass_proj cfg s inp.now inp.pos).2.2.2.2.2.1
  have hPl : ∀ s : VacuumState,
      (positionPass cfg s inp.now inp.pos).1.lastConsumablesCheck = s.lastConsumablesCheck :=
    fun s => (positionPass_proj cfg s inp.now inp.pos).2.2.2.2.2.2.1
  rw [updateConsumables_raise_eq cfg inp.now inp.cons.fetch] at hEqR
  rw [updateConsumables_failedFetch_eq cfg inp.now] at hEqF
  simp only [hPc, hSc, hBc, hPl, hSl, hBl] at hEqR hEqF
  by_cases hne : st.consumables ≠ []
  · rw [if_pos hne] at hEqR hEqF
    by_cases hg : inp.now - st.lastConsumablesCheck < CONSUMABLES_CHECK_INTERVAL
    · rw [if_pos hg] at hEqR hEqF
      refine ⟨?_, ?_, ?_, ?_⟩
      · rw [hEqR, hEqF]
      · rw [hEqR, hEqF]
      · rw [hEqR]
      · intro _ hgate
        exact absurd hg (not_lt.mpr hgate)
    · rw [if_neg hg] at hEqR hEqF
      refine ⟨?_, ?_, ?_, ?_⟩
      · rw [hEqR, hEqF]
      · rw [hEqR, hEqF]
      · rw [hEqR]
      · intro _ _
        rw [hEqR]
        simp
  · rw [if_neg hne] at hEqR hEqF
    refine ⟨?_, ?_, ?_, ?_⟩
    · rw [hEqR, hEqF]
    · rw [hEqR, hEqF]
    · rw [hEqR]
    · intro hne2 _
      exact absurd hne2 hne

/-- C9: an exception thrown inside the position-tracking sub-step or inside
the consumable-check sub-step of a poll cycle is caught and logged at debug
(low) severity; it never marks the device offline (the cycle still ends with
`online = true`) and never aborts the remainder of the cycle — the final
state and the publications are exactly those of a cycle in which the failing
sub-step merely had nothing to do (its fetches returning null), so every
later step still runs. -/
theorem C9_subSteps_failSoft :
    (∀ (cfg : Config) (st : VacuumState) (inp : PollInputs) (attributes : List StateAttr),
      inp.attrs = some attributes → inp.publishRaise = false →
      (updateVacuumState cfg st { inp with pos := { inp.pos with raise := true } }).1
        = (updateVacuumState cfg st { inp with pos := ⟨false, none, none, none⟩ }).1 ∧
      (updateVacuumState cfg st { inp with pos := { inp.pos with raise := true } }).2.1
        = (updateVacuumState cfg st { inp with pos := ⟨false, none, none, none⟩ }).2.1 ∧
      (updateVacuumState cfg st { inp with pos := { inp.pos with raise := true } }).1.online
        = true ∧
      (cfg.positionTrackingEnabled = true → st.areaToSegmentMap ≠ [] →
        LogEvent.mk Severity.debug "position-tracking-error"
          ∈ (updateVacuumState cfg st
              { inp with pos := { inp.pos with raise := true } }).2.2)) ∧
    (∀ (cfg : Config) (st : VacuumState) (inp : PollInputs) (attributes : List StateAttr),
      inp.attrs = some attributes → inp.publishRaise = false →
      (updateVacuumState cfg st { inp with cons := ⟨true, inp.cons.fetch⟩ }).1
        = (updateVacuumState cfg st { inp with cons := ⟨false, none⟩ }).1 ∧
      (updateVacuumState cfg st { inp with cons := ⟨true, inp.cons.fetch⟩ }).2.1
        = (updateVacuumState cfg st { inp with cons := ⟨false, none⟩ }).2.1 ∧
      (updateVacuumState cfg st { inp with cons := ⟨true, inp.cons.fetch⟩ }).1.online = true ∧
      (st.consumables ≠ [] →
        CONSUMABLES_CHECK_INTERVAL ≤ inp.now - st.lastConsumablesCheck →
        LogEvent.mk Severity.debug "consumables-error"
          ∈ (updateVacuumState cfg st { inp with cons := ⟨true, inp.cons.fetch⟩ }).2.2)) :=
  ⟨fun cfg st inp attributes ha hr => posRaise_failSoft cfg st inp attributes ha hr,
   fun cfg st inp attributes ha hr => consRaise_failSoft cfg st inp attributes ha hr⟩

/-- Concrete device record for the C9 witness: position tracking enabled,
one mapped area and one tracked consumable, consumable gate open. -/
def sampleCfgPos : Config := ⟨true, none, none, none⟩

def sampleStateC9 : VacuumState :=
  ⟨some 100, some 1, some 0x42, some 1, none, false, true, 0, none, 0, 0,
    [(1, ("seg_1", "Kitchen"))], [("Main Brush", ⟨none, false⟩)]⟩

/-- Witness for C9: at the sample device, an exception injected into either
sub-step leaves the device online and is logged at debug severity. -/
theorem C9_subSteps_failSoft_witness :
    (updateVacuumState sampleCfgPos sampleStateC9
      { samplePollInputs with
        pos := { samplePollInputs.pos with raise := true } }).1.online = true ∧
    LogEvent.mk Severity.debug "position-tracking-error"
      ∈ (updateVacuumState sampleCfgPos sampleStateC9
          { samplePollInputs with
            pos := { samplePollInputs.pos with raise := true } }).2.2 ∧
    LogEvent.mk Severity.debug "consumables-error"
      ∈ (updateVacuumState sampleCfgPos sampleStateC9
          { samplePollInputs with cons := ⟨true, samplePollInputs.cons.fetch⟩ }).2.2 :=
  ⟨(C9_subSteps_failSoft.1 sampleCfgPos sampleStateC9 samplePollInputs sampleAttrs
      rfl rfl).2.2.1,
   (C9_subSteps_failSoft.1 sampleCfgPos sampleStateC9 samplePollInputs sampleAttrs
      rfl rfl).2.2.2 rfl (by decide),
   (C9_subSteps_failSoft.2 sampleCfgPos sampleStateC9 samplePollInputs sampleAttrs
      rfl rfl).2.2.2 (by decide) (by decide)⟩

/-! ### Claims about the consumable tracker -/

/-- The needs-replacement boolean the tracker computes for a consumable:
`round(remaining / maxLifetime * 100) <= warningThreshold`. -/
def needsReplacementOf (ml : MaxLifetimes) (thr : Int) (c : Consumable) : Bool :=
  decide (jsRound (c.remainingValue / getMaxLifetime c ml * 100) ≤ thr)

/-- A main-brush consumable with 200 minutes remaining (the spec scenario). -/
def mainBrush200 : Consumable := ⟨"brush", "main", 200⟩

/-- Counterexample to C6 as stated: for an entry with a registered contact
sensor whose stored state equals the newly computed needs-replacement value
(no transition: remaining 200min of 18000, 10% threshold, stored state
`true`), the check logs nothing and leaves the entry unchanged — yet it still
issues a `BooleanState` publication (`some false`), so the signal is
published on every check, not only on transitions. -/
theorem C6_counterexample_publishWithoutTransition :
    (checkConsumable defaultMaxLifetimes 10 ⟨some true, true⟩ mainBrush200).1
        = ⟨some true, true⟩ ∧
    (checkConsumable defaultMaxLifetimes 10 ⟨some true, true⟩ mainBrush200).2.logged = false ∧
    (checkConsumable defaultMaxLifetimes 10 ⟨some true, true⟩ mainBrush200).2.published
        = some false := by
  refine ⟨?_, ?_, ?_⟩ <;> decide

/-- C6 (amended): the needs-replacement log line is strictly edge-triggered —
it fires iff no state is stored yet or the stored state differs from the
computed value — and the stored state always ends up at the computed value;
the contact-sensor publication, however, is issued on every (time-gated)
check whenever an endpoint exists, transition or not, and never otherwise.
In the spec's scenario (200min remaining of 18000, 10% threshold, three
consecutive checks with unchanged input and no contact sensor) the signal
therefore fires on the first check only. -/
theorem C6_amended_edgeTriggeredLog :
    (∀ (ml : MaxLifetimes) (thr : Int) (entry : ConsumableEntry) (c : Consumable),
      ((checkConsumable ml thr entry c).2.logged = true ↔
        entry.lastState ≠ some (needsReplacementOf ml thr c)) ∧
      (checkConsumable ml thr entry c).2.published
        = (if entry.hasEndpoint then some (!needsReplacementOf ml thr c) else none) ∧
      (checkConsumable ml thr entry c).1.lastState = some (needsReplacementOf ml thr c) ∧
      (checkConsumable ml thr entry c).1.hasEndpoint = entry.hasEndpoint) ∧
    ((checkConsumable defaultMaxLifetimes 10 ⟨none, false⟩ mainBrush200).2.logged = true ∧
     (checkConsumable defaultMaxLifetimes 10
       (checkConsumable defaultMaxLifetimes 10 ⟨none, false⟩ mainBrush200).1
       mainBrush200).2.logged = false ∧
     (checkConsumable defaultMaxLifetimes 10
       (checkConsumable defaultMaxLifetimes 10
         (checkConsumable defaultMaxLifetimes 10 ⟨none, false⟩ mainBrush200).1
         mainBrush200).1
       mainBrush200).2.logged = false ∧
     (checkConsumable defaultMaxLifetimes 10 ⟨none, false⟩ mainBrush200).2.published = none ∧
     (checkConsumable defaultMaxLifetimes 10
       (checkConsumable defaultMaxLifetimes 10 ⟨none, false⟩ mainBrush200).1
       mainBrush200).2.published = none) := by
  constructor
  · intro ml thr entry c
    refine ⟨?_, ?_, ?_, ?_⟩
    · rcases hl : entry.lastState with _ | b
      · simp [checkConsumable, needsReplacementOf, hl]
      · by_cases hb : b = needsReplacementOf ml thr c
        · subst hb
          simp [checkConsumable, needsReplacementOf, hl]
        · simp only [needsReplacementOf] at hb
          simp [checkConsumable, needsReplacementOf, hl, hb]
    · simp [checkConsumable, needsReplacementOf]
    · rcases hl : entry.lastState with _ | b
      · simp [checkConsumable, needsReplacementOf, hl]
      · by_cases hb : b = needsReplacementOf ml thr c
        · subst hb
          simp [checkConsumable, needsReplacementOf, hl]
        · simp only [needsReplacementOf] at hb
          simp [checkConsumable, needsReplacementOf, hl, hb]
    · rcases hl : entry.lastState with _ | b
      · simp [checkConsumable, needsReplacementOf, hl]
      · by_cases hb : b = needsReplacementOf ml thr c
        · subst hb
          simp [checkConsumable, needsReplacementOf, hl]
        · simp only [needsReplacementOf] at hb
          simp [checkConsumable, needsReplacementOf, hl, hb]
  · refine ⟨?_, ?_, ?_, ?_, ?_⟩ <;> decide

/-- C7: for every consumable checked, the recorded needs-replacement boolean
is `round(remaining / maxLifetime * 100) ≤ warningThreshold` — it is stored
in the entry and (negated) published to an existing contact sensor — the
warning threshold resolves to 10 when not configured, and the gated
consumable pass applies exactly these resolved configuration values to the
entry found under the consumable's name. -/
theorem C7_lifePercent_and_threshold :
    (∀ (ml : MaxLifetimes) (thr : Int) (entry : ConsumableEntry) (c : Consumable),
      (checkConsumable ml thr entry c).1.lastState
        = some (decide (jsRound (c.remainingValue / getMaxLifetime c ml * 100) ≤ thr)) ∧
      (entry.hasEndpoint = true →
        (checkConsumable ml thr entry c).2.published
          = some (!(decide (jsRound (c.remainingValue / getMaxLifetime c ml * 100) ≤ thr))))) ∧
    resolveWarningThreshold none = 10 ∧
    (∀ (cfg : Config) (st : VacuumState) (now : Rat) (c : Consumable)
      (entry : ConsumableEntry),
      ¬(now - st.lastConsumablesCheck < CONSUMABLES_CHECK_INTERVAL) →
      st.consumables = [(getConsumableName c, entry)] →
      (updateConsumableStatesForVacuum cfg st now ⟨false, some [c]⟩).1.consumables
        = [(getConsumableName c,
            (checkConsumable (resolveMaxLifetimes cfg.maxLifetimes)
              (resolveWarningThreshold cfg.warningThreshold) entry c).1)]) := by
  refine ⟨?_, rfl, ?_⟩
  · intro ml thr entry c
    constructor
    · rcases hl : entry.lastState with _ | b
      · simp [checkConsumable, hl]
      · by_cases hb : b = decide (jsRound (c.remainingValue / getMaxLifetime c ml * 100) ≤ thr)
        · subst hb
          simp [checkConsumable, hl]
        · simp [checkConsumable, hl, hb]
    · intro hep
      simp [checkConsumable, hep]
  · intro cfg st now c entry hgate hmap
    rw [updateConsumableStatesForVacuum, if_neg hgate]
    simp [processConsumables, hmap, lookupEntry, updateEntry]

/-- Sample record for the C7 witness: one tracked main-brush entry, gate
open. -/
def sampleConsState : VacuumState :=
  ⟨some 100, some 1, some 0x42, some 1, none, false, true, 0, none, 0, 0, [],
    [("Main Brush", ⟨none, false⟩)]⟩

/-- Witness for C7: with no configured lifetimes or threshold, the pass
records needs-replacement = (round(200/18000·100) = 1 ≤ 10) = true for the
main brush. -/
theorem C7_lifePercent_and_threshold_witness :
    (updateConsumableStatesForVacuum sampleConfig sampleConsState 1000000
        ⟨false, some [mainBrush200]⟩).1.consumables
      = [("Main Brush", ⟨some true, false⟩)] :=
  ((C7_lifePercent_and_threshold.2.2 sampleConfig sampleConsState 1000000 mainBrush200
      ⟨none, false⟩ (by decide) (by decide)).trans (by decide))

/-! ### Clean-mode catalog deduplication (module.ts lines 518-537) -/

/-- One entry of the `supportedCleanModes` catalog. -/
structure CleanMode where
  label : String
  mode : Int
  modeTags : List Int
deriving DecidableEq

/-- Numeric values of the external `RvcCleanMode.ModeTag` constants used by
the fallback entry (a matterbridge import; the claim depends only on the
label and the mode code, not on these tag values). -/
def modeTagVacuum : Int := 0x4001

def modeTagAuto : Int := 0

/-- The synthesized fallback entry (module.ts lines 531-537). -/
def fallbackCleanMode : CleanMode := ⟨"Vacuum", 66, [modeTagVacuum, modeTagAuto]⟩

/-- The dedup filter of lines 519-527: a `Set` of seen labels threaded
through `Array.prototype.filter`; an entry is kept iff its label was not
seen earlier in the array. -/
def dedupeByLabelAux (seen : List String) : List CleanMode → List CleanMode
  | [] => []
  | m :: ms =>
    if m.label ∈ seen then dedupeByLabelAux seen ms
    else m :: dedupeByLabelAux (m.label :: seen) ms

/-- The deduplication pass starts with an empty seen-set. -/
def dedupeByLabel (modes : List CleanMode) : List CleanMode :=
  dedupeByLabelAux [] modes

/-- Lines 518-537 of `createDeviceForVacuum`: deduplicate by label, then
synthesize the single fallback entry when nothing is left. -/
def finalizeCleanModes (modes : List CleanMode) : List CleanMode :=
  let deduplicated := dedupeByLabel modes
  if deduplicated.isEmpty then [fallbackCleanMode] else deduplicated

theorem find?_cons_eq_of_true (p : CleanMode → Bool) (a : CleanMode) (l : List CleanMode)
    (h : p a = true) : List.find? p (a :: l) = some a := by
  simp [List.find?, h]

theorem find?_cons_eq_of_false (p : CleanMode → Bool) (a : CleanMode) (l : List CleanMode)
    (h : p a = false) : List.find? p (a :: l) = List.find? p l := by
  simp [List.find?, h]

theorem dedupeByLabelAux_sublist (seen : List String) (ms : List CleanMode) :
    List.Sublist (dedupeByLabelAux seen ms) ms := by
  induction ms generalizing seen with
  | nil => simp [dedupeByLabelAux]
  | cons m ms ih =>
    rw [dedupeByLabelAux]
    split
    · exact (ih seen).trans (List.sublist_cons_self m ms)
    · exact List.Sublist.cons₂ m (ih _)

theorem dedupeByLabelAux_nodup (seen : List String) (ms : List CleanMode) :
    (dedupeByLabelAux seen ms).Pairwise (fun a b => a.label ≠ b.label) ∧
    ∀ m ∈ dedupeByLabelAux seen ms, m.label ∉ seen := by
  induction ms generalizing seen with
  | nil => exact ⟨List.Pairwise.nil, by simp [dedupeByLabelAux]⟩
  | cons m ms ih =>
    rw [dedupeByLabelAux]
    split
    · exact ih seen
    · rename_i hns
      obtain ⟨hpw, hseen⟩ := ih (m.label :: seen)
      constructor
      · refine List.Pairwise.cons ?_ hpw
        intro b hb
        have hb2 := hseen b hb
        simp only [List.mem_cons] at hb2
        push_neg at hb2
        exact fun h => hb2.1 h.symm
      · intro x hx
        rcases List.mem_cons.mp hx with rfl | hx2
        · exact hns
        · have hx3 := hseen x hx2
          simp only [List.mem_cons] at hx3
          push_neg at hx3
          exact hx3.2

theorem dedupeByLabelAux_find (seen : List String) (ms : List CleanMode) (lab : String)
    (hlab : lab ∉ seen) :
    (dedupeByLabelAux seen ms).find? (fun m => m.label == lab)
      = ms.find? (fun m => m.label == lab) := by
  induction ms generalizing seen with
  | nil => rfl
  | cons m ms ih =>
    rw [dedupeByLabelAux]
    split
    · rename_i hmem
      have hne : (m.label == lab) = false := by
        simp only [beq_eq_false_iff_ne, ne_eq]
        intro h
        exact hlab (h ▸ hmem)
      rw [ih seen hlab, find?_cons_eq_of_false (fun m => m.label == lab) m ms hne]
    · rename_i hns
      by_cases hpm : (m.label == lab) = true
      · rw [find?_cons_eq_of_true (fun m => m.label == lab) m _ hpm,
          find?_cons_eq_of_true (fun m => m.label == lab) m ms hpm]
      · have hne : (m.label == lab) = false := by simpa using hpm
        have hlab2 : lab ∉ m.label :: seen := by
          simp only [List.mem_cons]
          push_neg
          refine ⟨?_, hlab⟩
          simp only [beq_eq_false_iff_ne, ne_eq] at hne
          exact fun h => hne h.symm
        rw [find?_cons_eq_of_false (fun m => m.label == lab) m _ hne,
          find?_cons_eq_of_false (fun m => m.label == lab) m ms hne, ih _ hlab2]

theorem dedupeByLabel_eq_nil (modes : List CleanMode) :
    dedupeByLabel modes = [] ↔ modes = [] := by
  cases modes with
  | nil => simp [dedupeByLabel, dedupeByLabelAux]
  | cons m ms => simp [dedupeByLabel, dedupeByLabelAux]

/-- C8: within one device's clean-mode catalog, labels end up unique and the
catalog non-empty: the dedup pass keeps, for every label, exactly the first
entry carrying it (`find?` by any label is unchanged, while the result is a
duplicate-free sublist of the input), and when no entries could be derived
at all, exactly the single fallback entry (label "Vacuum", code 66) is
synthesized; otherwise the catalog is exactly the deduplicated list. -/
theorem C8_cleanModeCatalog :
    ∀ modes : List CleanMode,
    finalizeCleanModes modes ≠ [] ∧
    (finalizeCleanModes modes).Pairwise (fun a b => a.label ≠ b.label) ∧
    List.Sublist (dedupeByLabel modes) modes ∧
    (∀ lab : String, (dedupeByLabel modes).find? (fun m => m.label == lab)
      = modes.find? (fun m => m.label == lab)) ∧
    (dedupeByLabel modes = [] ↔ modes = []) ∧
    (modes = [] → finalizeCleanModes modes = [fallbackCleanMode]) ∧
    (modes ≠ [] → finalizeCleanModes modes = dedupeByLabel modes) := by
  intro modes
  refine ⟨?_, ?_, dedupeByLabelAux_sublist [] modes,
    fun lab => dedupeByLabelAux_find [] modes lab (by simp),
    dedupeByLabel_eq_nil modes, ?_, ?_⟩
  · rw [finalizeCleanModes]
    split
    · simp
    · rename_i h
      simpa [List.isEmpty_iff] using h
  · rw [finalizeCleanModes]
    split
    · simp
    · exact (dedupeByLabelAux_nodup [] modes).1
  · intro h
    subst h
    rfl
  · intro h
    rw [finalizeCleanModes]
    split
    · rename_i he
      rw [List.isEmpty_iff] at he
      exact absurd ((dedupeByLabel_eq_nil modes).mp he) h
    · rfl

/-- Input with a duplicate label for the C8 witness. -/
def dupModesSample : List CleanMode :=
  [⟨"Vacuum (Auto)", 67, [modeTagVacuum, modeTagAuto]⟩,
   ⟨"Vacuum (Auto)", 68, [modeTagVacuum]⟩,
   ⟨"Mop (Auto)", 31, [modeTagAuto]⟩]

/-- Witness for C8: with a duplicated label only the first occurrence
survives, and an empty derivation yields exactly the fallback entry. -/
theorem C8_cleanModeCatalog_witness :
    finalizeCleanModes [] = [fallbackCleanMode] ∧
    finalizeCleanModes dupModesSample = dedupeByLabel dupModesSample ∧
    (dedupeByLabel dupModesSample).find? (fun m => m.label == "Vacuum (Auto)")
      = dupModesSample.find? (fun m => m.label == "Vacuum (Auto)") ∧
    dedupeByLabel dupModesSample =
      [⟨"Vacuum (Auto)", 67, [modeTagVacuum, modeTagAuto]⟩, ⟨"Mop (Auto)", 31, [modeTagAuto]⟩] :=
  ⟨(C8_cleanModeCatalog []).2.2.2.2.2.1 rfl,
   (C8_cleanModeCatalog dupModesSample).2.2.2.2.2.2 (by decide),
   (C8_cleanModeCatalog dupModesSample).2.2.2.1 "Vacuum (Auto)",
   by decide⟩

end ValetudoBridge
